import Mathlib

/-!
# EM027AS012 e-paper display driver (`epd_mod.c`): bus protocol and lifecycle

A shallow embedding of `epd_mod.c`.  Kernel services (SPI core, GPIO, I2C core,
PWM core, allocator) are external: every call to one of them is recorded as an
`Event` in a trace, and its return value is supplied by an environment `Env`
that may depend on the whole history of earlier events.  Logging calls
(`DBG`, `ERR`, `printk`) have no effect on control flow and are not recorded.
-/

namespace Epd

/-! ## Constants -/

/-- Modelled from the spec: the error `InvalidCommand`.  The constant `EINVAL` is
defined in the kernel's errno headers, which are not part of the sources; its
standard Linux value is used. -/
def EINVAL : Int := 22

/-- Modelled from the spec: the error `ResourceUnavailable` of the sensor.  The
constant `ENODEV` is defined in the kernel's errno headers; standard Linux value. -/
def ENODEV : Int := 19

/-- Modelled from the spec: allocation failure.  The constant `ENOMEM` is defined in
the kernel's errno headers; standard Linux value. -/
def ENOMEM : Int := 12

/-- Modelled from the spec: `MAX_ERRNO` of the kernel's `err.h`, the number of
pointer values reserved for encoded error codes. -/
def MAX_ERRNO : Int := 4095

def LM75_ADDR : Nat := 0x49
def PWM_PERIOD : Nat := 5000
def PWM_DUTY_PERCENT : Nat := 50
def PWM_DUTY : Nat := PWM_PERIOD * PWM_DUTY_PERCENT / 100

def SPI_REG_HEADER : Nat := 0x70
def SPI_DATA_HEADER : Nat := 0x72

def SPI_REGIDX_CHANSEL : Nat := 0x01
def SPI_REGIDX_OUTPUT : Nat := 0x02
def SPI_REGIDX_LATCH : Nat := 0x03
def SPI_REGIDX_GATE_SRC_LVL : Nat := 0x04
def SPI_REGIDX_CHARGEPUMP : Nat := 0x05
def SPI_REGIDX_DCFREQ : Nat := 0x06
def SPI_REGIDX_OSC : Nat := 0x07
def SPI_REGIDX_ADC : Nat := 0x08
def SPI_REGIDX_VCOM : Nat := 0x09
def SPI_REGIDX_DATA : Nat := 0x0a

/-! ## Register data (`SPI_REGDATA_INIT`) -/

def __spi_regdata_CHAN_1_44 : List Nat := [0x00, 0x00, 0x00, 0x00, 0x00, 0x0f, 0xff, 0x00]
def __spi_regdata_CHAN_2 : List Nat := [0x00, 0x00, 0x00, 0x00, 0x01, 0xff, 0xe0, 0x00]
def __spi_regdata_CHAN_2_7 : List Nat := [0x00, 0x00, 0x00, 0x7f, 0xff, 0xfe, 0x00, 0x00]
def __spi_regdata_OUTPUT_OFF : List Nat := [0x05]
def __spi_regdata_OUTPUT_DISABLE : List Nat := [0x24]
def __spi_regdata_OUTPUT_ENABLE : List Nat := [0x2f]
def __spi_regdata_LATCH_OFF : List Nat := [0x00]
def __spi_regdata_LATCH_ON : List Nat := [0x01]
def __spi_regdata_GATE_SRC_LVL_1_44 : List Nat := [0x03]
def __spi_regdata_GATE_SRC_LVL_2 : List Nat := [0x03]
def __spi_regdata_GATE_SRC_LVL_2_7 : List Nat := [0x00]
def __spi_regdata_GATE_SRC_LVL_DISCHARGE_0 : List Nat := [0x00]
def __spi_regdata_GATE_SRC_LVL_DISCHARGE_1 : List Nat := [0x0c]
def __spi_regdata_GATE_SRC_LVL_DISCHARGE_2 : List Nat := [0x50]
def __spi_regdata_GATE_SRC_LVL_DISCHARGE_3 : List Nat := [0xa0]
def __spi_regdata_CHARGEPUMP_VPOS_OFF : List Nat := [0x00]
def __spi_regdata_CHARGEPUMP_VPOS_ON : List Nat := [0x01]
def __spi_regdata_CHARGEPUMP_VNEG_OFF : List Nat := [0x02]
def __spi_regdata_CHARGEPUMP_VNEG_ON : List Nat := [0x03]
def __spi_regdata_CHARGEPUMP_VCOM_ON : List Nat := [0x0f]
def __spi_regdata_CHARGEPUMP_VCOM_OFF : List Nat := [0x0e]
def __spi_regdata_DCFREQ : List Nat := [0xff]
def __spi_regdata_OSC_ON : List Nat := [0x9d]
def __spi_regdata_OSC_OFF : List Nat := [0x0d]
def __spi_regdata_ADC_DISABLE : List Nat := [0x00]
def __spi_regdata_VCOM_LVL : List Nat := [0xD0, 0x00]

/-- The macro `SPI_REGDATA_SZ(n)`, that is `ARRAY_SIZE(__spi_regdata_n)`. -/
def SPI_REGDATA_SZ (regdata : List Nat) : Nat := regdata.length

/-! ## `enum spi_cmd_id` -/

def SPI_CMD_CHANSEL_1_44 : Nat := 0
def SPI_CMD_CHANSEL_2 : Nat := 1
def SPI_CMD_CHANSEL_2_7 : Nat := 2
def SPI_CMD_OUTPUT_OFF : Nat := 3
def SPI_CMD_OUTPUT_DISABLE : Nat := 4
def SPI_CMD_OUTPUT_ENABLE : Nat := 5
def SPI_CMD_LATCH_OFF : Nat := 6
def SPI_CMD_LATCH_ON : Nat := 7
def SPI_CMD_GATE_SRC_LVL_1_44 : Nat := 8
def SPI_CMD_GATE_SRC_LVL_2 : Nat := 9
def SPI_CMD_GATE_SRC_LVL_2_7 : Nat := 10
def SPI_CMD_GATE_SRC_LVL_DISCHARGE_0 : Nat := 11
def SPI_CMD_GATE_SRC_LVL_DISCHARGE_1 : Nat := 12
def SPI_CMD_GATE_SRC_LVL_DISCHARGE_2 : Nat := 13
def SPI_CMD_GATE_SRC_LVL_DISCHARGE_3 : Nat := 14
def SPI_CMD_CHARGEPUMP_VPOS_ON : Nat := 15
def SPI_CMD_CHARGEPUMP_VPOS_OFF : Nat := 16
def SPI_CMD_CHARGEPUMP_VNEG_ON : Nat := 17
def SPI_CMD_CHARGEPUMP_VNEG_OFF : Nat := 18
def SPI_CMD_CHARGEPUMP_VCOM_ON : Nat := 19
def SPI_CMD_CHARGEPUMP_VCOM_OFF : Nat := 20
def SPI_CMD_DCFREQ : Nat := 21
def SPI_CMD_OSC_ON : Nat := 22
def SPI_CMD_OSC_OFF : Nat := 23
def SPI_CMD_ADC_DISABLE : Nat := 24
def SPI_CMD_VCOM_LVL : Nat := 25
def SPI_CMD_NR : Nat := 26

/-! ## The command table `__spi_cmd` -/

/-- The C `struct spi_cmd`: `regdata` is the array the pointer refers to (the empty
list for a null pointer), `regdata_sz` the stored length, `regid` the register. -/
structure spi_cmd where
  regdata : List Nat
  regdata_sz : Nat
  regid : Nat
deriving DecidableEq, Repr

/-- The macro `SPI_CMD_ENTRY(e, rid, rdata)`: a designator `[e]` together with the
initialiser of that slot. -/
def SPI_CMD_ENTRY (e : Nat) (rid : Nat) (rdata : List Nat) : Nat × spi_cmd :=
  (e, { regdata := rdata, regdata_sz := SPI_REGDATA_SZ rdata, regid := rid })

/-- The designated initialisers of `__spi_cmd`, in source order. -/
def __spi_cmd_init : List (Nat × spi_cmd) :=
  [ SPI_CMD_ENTRY SPI_CMD_CHANSEL_1_44 SPI_REGIDX_CHANSEL __spi_regdata_CHAN_1_44,
    SPI_CMD_ENTRY SPI_CMD_CHANSEL_2 SPI_REGIDX_CHANSEL __spi_regdata_CHAN_2,
    SPI_CMD_ENTRY SPI_CMD_CHANSEL_2_7 SPI_REGIDX_CHANSEL __spi_regdata_CHAN_2_7,
    SPI_CMD_ENTRY SPI_CMD_OUTPUT_OFF SPI_REGIDX_OUTPUT __spi_regdata_OUTPUT_OFF,
    SPI_CMD_ENTRY SPI_CMD_OUTPUT_DISABLE SPI_REGIDX_OUTPUT __spi_regdata_OUTPUT_DISABLE,
    SPI_CMD_ENTRY SPI_CMD_OUTPUT_ENABLE SPI_REGIDX_OUTPUT __spi_regdata_OUTPUT_ENABLE,
    SPI_CMD_ENTRY SPI_CMD_LATCH_OFF SPI_REGIDX_LATCH __spi_regdata_LATCH_OFF,
    SPI_CMD_ENTRY SPI_CMD_LATCH_ON SPI_REGIDX_LATCH __spi_regdata_LATCH_ON,
    SPI_CMD_ENTRY SPI_CMD_GATE_SRC_LVL_1_44 SPI_REGIDX_GATE_SRC_LVL
      __spi_regdata_GATE_SRC_LVL_1_44,
    SPI_CMD_ENTRY SPI_CMD_GATE_SRC_LVL_2 SPI_REGIDX_GATE_SRC_LVL
      __spi_regdata_GATE_SRC_LVL_2,
    SPI_CMD_ENTRY SPI_CMD_GATE_SRC_LVL_2_7 SPI_REGIDX_GATE_SRC_LVL
      __spi_regdata_GATE_SRC_LVL_2_7,
    SPI_CMD_ENTRY SPI_CMD_GATE_SRC_LVL_DISCHARGE_0 SPI_REGIDX_GATE_SRC_LVL
      __spi_regdata_GATE_SRC_LVL_DISCHARGE_0,
    SPI_CMD_ENTRY SPI_CMD_GATE_SRC_LVL_DISCHARGE_1 SPI_REGIDX_GATE_SRC_LVL
      __spi_regdata_GATE_SRC_LVL_DISCHARGE_1,
    SPI_CMD_ENTRY SPI_CMD_GATE_SRC_LVL_DISCHARGE_2 SPI_REGIDX_GATE_SRC_LVL
      __spi_regdata_GATE_SRC_LVL_DISCHARGE_2,
    SPI_CMD_ENTRY SPI_CMD_GATE_SRC_LVL_DISCHARGE_3 SPI_REGIDX_GATE_SRC_LVL
      __spi_regdata_GATE_SRC_LVL_DISCHARGE_3,
    SPI_CMD_ENTRY SPI_CMD_CHARGEPUMP_VPOS_ON SPI_REGIDX_CHARGEPUMP
      __spi_regdata_CHARGEPUMP_VPOS_ON,
    SPI_CMD_ENTRY SPI_CMD_CHARGEPUMP_VPOS_OFF SPI_REGIDX_CHARGEPUMP
      __spi_regdata_CHARGEPUMP_VPOS_OFF,
    SPI_CMD_ENTRY SPI_CMD_CHARGEPUMP_VNEG_ON SPI_REGIDX_CHARGEPUMP
      __spi_regdata_CHARGEPUMP_VNEG_ON,
    SPI_CMD_ENTRY SPI_CMD_CHARGEPUMP_VNEG_OFF SPI_REGIDX_CHARGEPUMP
      __spi_regdata_CHARGEPUMP_VNEG_OFF,
    SPI_CMD_ENTRY SPI_CMD_CHARGEPUMP_VCOM_ON SPI_REGIDX_CHARGEPUMP
      __spi_regdata_CHARGEPUMP_VCOM_ON,
    SPI_CMD_ENTRY SPI_CMD_CHARGEPUMP_VCOM_OFF SPI_REGIDX_CHARGEPUMP
      __spi_regdata_CHARGEPUMP_VCOM_OFF,
    SPI_CMD_ENTRY SPI_CMD_DCFREQ SPI_REGIDX_DCFREQ __spi_regdata_DCFREQ,
    SPI_CMD_ENTRY SPI_CMD_OSC_ON SPI_REGIDX_OSC __spi_regdata_OSC_ON,
    SPI_CMD_ENTRY SPI_CMD_OSC_OFF SPI_REGIDX_OSC __spi_regdata_OSC_OFF,
    SPI_CMD_ENTRY SPI_CMD_ADC_DISABLE SPI_REGIDX_ADC __spi_regdata_ADC_DISABLE,
    SPI_CMD_ENTRY SPI_CMD_VCOM_LVL SPI_REGIDX_VCOM __spi_regdata_VCOM_LVL ]

/-- C semantics of an array of unknown size with designated initialisers: the array
has one slot more than the largest designator, a designated slot holds its (last)
initialiser and every other slot is zero-initialised. -/
def designated_init {α : Type} (zero : α) (ds : List (Nat × α)) : List α :=
  ds.foldl
    (fun arr d => (arr ++ List.replicate (d.1 + 1 - arr.length) zero).set d.1 d.2) []

/-- A zero-initialised `struct spi_cmd` (null `regdata`, size 0, register 0). -/
def spi_cmd_zero : spi_cmd := { regdata := [], regdata_sz := 0, regid := 0 }

/-- The static table `__spi_cmd[]`. -/
def __spi_cmd : List spi_cmd := designated_init spi_cmd_zero __spi_cmd_init

/-! ## Traces of kernel calls -/

/-- The C `struct spi_transfer` (fields used by the driver): `tx_buf` is the buffer
the pointer refers to, `len` the number of bytes to send from it, `cs_change` the
chip-select flag.  Unset fields are zero. -/
structure spi_transfer where
  tx_buf : List Nat
  len : Nat
  cs_change : Nat := 0
deriving DecidableEq, Repr

/-- What a sub-transfer puts on the bus: the first `len` bytes of its buffer and its
chip-select flag. -/
def spi_transfer.wire (t : spi_transfer) : List Nat × Nat := (t.tx_buf.take t.len, t.cs_change)

/-- One recorded call of a kernel service, with its arguments and return value.
Pointers that are tested against `NULL` are `Option`s, the PWM pointer (tested with
`IS_ERR`) is the integer value of the pointer. -/
inductive Event where
  | kzalloc (ok : Bool)
  | kfree
  | spi_setup (ret : Int)
  | spi_set_drvdata
  | spi_sync_transfer (tx : List spi_transfer) (ret : Int)
  | gpio_get_value (gpio : Nat) (v : Int)
  | cpu_relax
  | i2c_get_adapter (nr : Nat) (adapt : Option Nat)
  | i2c_new_device (adapt : Nat) (addr : Nat) (client : Option Nat)
  | i2c_put_adapter (adapt : Nat)
  | i2c_unregister_device (client : Nat)
  | pwm_get (pwm : Int)
  | pwm_config (pwm : Int) (duty : Nat) (period : Nat) (ret : Int)
  | pwm_enable (pwm : Int)
  | pwm_disable (pwm : Int)
  | pwm_free (pwm : Int)
  | epd_therm_get_temp (client : Option Nat) (temp : Int)
deriving DecidableEq, Repr

/-- The environment: the return value of every kernel service, as a function of the
history of calls made so far (and of the arguments of the call).  The last field is
not a service: `freed_client_adapter h client adapt` is the value found in the field
`adapter` of the i2c client `client` when it is read after `i2c_unregister_device`
has released that client (`adapt` being the value the field held while the client
was alive); the memory is no longer owned by the driver, so any value may be there. -/
structure Env where
  kzalloc : List Event → Bool
  spi_setup : List Event → Int
  spi_sync_transfer : List Event → List spi_transfer → Int
  gpio_get_value : List Event → Nat → Int
  i2c_get_adapter : List Event → Nat → Option Nat
  i2c_new_device : List Event → Nat → Nat → Option Nat
  pwm_get : List Event → Int
  pwm_config : List Event → Int → Nat → Nat → Int
  epd_therm_get_temp : List Event → Option Nat → Int
  freed_client_adapter : List Event → Nat → Nat → Nat

/-- Outcome of a function that contains the unbounded busy-wait: the trace produced
so far and the return value, `none` while the function is still spinning when the
poll budget runs out. -/
structure Run where
  trace : List Event
  result : Option Int
deriving DecidableEq, Repr

/-! ## Bus protocol: `__spi_send_cmd`, `spi_send_cmd`, `spi_send_data` -/

/-- The call `spi_sync_transfer(spi, tx, n)`: one bus transaction made of the first
`n` elements of `tx`; returns the extended history and the return value. -/
def spi_sync_transfer (env : Env) (h : List Event) (tx : List spi_transfer) (n : Nat) :
    List Event × Int :=
  let ret := env.spi_sync_transfer h (tx.take n)
  (h ++ [Event.spi_sync_transfer (tx.take n) ret], ret)

/-- The function `__spi_send_cmd(spi, idx, data, len)`; `idx` is a `u8`. -/
def __spi_send_cmd (env : Env) (h : List Event) (idx : Nat) (data : List Nat) (len : Nat) :
    List Event × Int :=
  let _spi_reg_hdr : List Nat := [SPI_REG_HEADER]
  let _spi_data_hdr : List Nat := [SPI_DATA_HEADER]
  let tx : List spi_transfer :=
    [ { tx_buf := _spi_reg_hdr, len := 1 },
      { tx_buf := [idx % 256], len := 1, cs_change := 1 },
      { tx_buf := _spi_data_hdr, len := 1 },
      { tx_buf := data, len := len } ]
  spi_sync_transfer env h tx tx.length

/-- The function `spi_send_cmd(spi, cid)`; `cid` is the unsigned value of the enum
argument.  An index outside the table is never read: the guard returns first. -/
def spi_send_cmd (env : Env) (h : List Event) (cid : Nat) : List Event × Int :=
  if cid ≥ SPI_CMD_NR then (h, -EINVAL)
  else
    let c := __spi_cmd.getD cid spi_cmd_zero
    __spi_send_cmd env h c.regid c.regdata c.regdata_sz

/-- The loop `while(gpio_get_value(gpio_busy)) cpu_relax();` with a budget of `fuel`
reads of the line.  The flag is `true` when the loop has ended (the line read 0). -/
def busy_wait (env : Env) (gpio_busy : Nat) : Nat → List Event → List Event × Bool
  | 0, h => (h, false)
  | fuel + 1, h =>
    let v := env.gpio_get_value h gpio_busy
    let h1 := h ++ [Event.gpio_get_value gpio_busy v]
    if v ≠ 0 then busy_wait env gpio_busy fuel (h1 ++ [Event.cpu_relax]) else (h1, true)

/-- The `for(i = 0; i < len; ++i)` loop of `spi_send_data`, from index `i` with the
current contents of `tx` and `ret`.  The first numeric argument bounds the number of
iterations (`len - i` always suffices); `fuel` is the poll budget of each busy-wait.
The pointer `&data[i]` is the buffer `data.drop i`. -/
def spi_send_data_loop (env : Env) (fuel : Nat) (gpio_busy : Nat) (data : List Nat)
    (len : Nat) : Nat → Nat → List spi_transfer → Int → List Event → Run
  | 0, i, _, ret, h => { trace := h, result := if i < len then none else some ret }
  | n + 1, i, tx, ret, h =>
    if i < len then
      let tx := tx.modifyHead (fun t => { t with tx_buf := data.drop i })
      let tx := if i + 1 = len then tx.modifyHead (fun t => { t with cs_change := 0 }) else tx
      let r := spi_sync_transfer env h tx 1
      if r.2 < 0 then { trace := r.1, result := some r.2 }
      else
        let w := busy_wait env gpio_busy fuel r.1
        if w.2 then spi_send_data_loop env fuel gpio_busy data len n (i + 1) tx r.2 w.1
        else { trace := w.1, result := none }
    else { trace := h, result := some ret }

/-- The function `spi_send_data(spi, gpio_busy, data, len)`. -/
def spi_send_data (env : Env) (fuel : Nat) (h : List Event) (gpio_busy : Nat)
    (data : List Nat) (len : Nat) : Run :=
  let _spi_reg_hdr : List Nat := [SPI_REG_HEADER]
  let _spi_data_hdr : List Nat := [SPI_DATA_HEADER]
  let _spi_regidx_data : List Nat := [SPI_REGIDX_DATA]
  let tx : List spi_transfer :=
    [ { tx_buf := _spi_reg_hdr, len := 1 },
      { tx_buf := _spi_regidx_data, len := 1, cs_change := 1 },
      { tx_buf := _spi_data_hdr, len := 1, cs_change := 1 } ]
  let r := spi_sync_transfer env h tx tx.length
  if r.2 < 0 then { trace := r.1, result := some r.2 }
  else
    let tx := tx.modifyHead (fun t => { t with len := 1 })
    let tx := tx.modifyHead (fun t => { t with cs_change := 1 })
    spi_send_data_loop env fuel gpio_busy data len len 0 tx r.2 r.1

/-! ## Lifecycle: clock, sensor, `epd_probe`, `epd_remove` -/

/-- The C `struct i2c_client` as far as the driver uses it: the identity of the
client and the adapter it is attached to (`client->adapter`). -/
structure i2c_client where
  ptr : Nat
  adapter : Nat
deriving DecidableEq, Repr

/-- The C `struct epd`: `spi` is the bus device (0 when unset), `therm` the sensor
client (`none` for `NULL`), `pwm` the value of the clock pointer (0 for `NULL`). -/
structure epd where
  spi : Nat
  therm : Option i2c_client
  pwm : Int
deriving DecidableEq, Repr

/-- Modelled from the spec: `IS_ERR` of the kernel's `err.h` (not part of the
sources): a pointer is an encoded error when its value, read as a signed integer,
lies in `[-MAX_ERRNO, -1]`. -/
def IS_ERR (p : Int) : Bool := decide (-MAX_ERRNO ≤ p ∧ p < 0)

/-- Modelled from the spec: `PTR_ERR` of the kernel's `err.h`: the error code encoded
in the pointer. -/
def PTR_ERR (p : Int) : Int := p

/-- The function `init_pwm(epd)`: returns the history, the updated instance and the
return value. -/
def init_pwm (env : Env) (h : List Event) (e : epd) : List Event × epd × Int :=
  let p := env.pwm_get h
  let h := h ++ [Event.pwm_get p]
  let e := { e with pwm := p }
  if IS_ERR e.pwm then
    let err := PTR_ERR e.pwm
    (h, { e with pwm := 0 }, err)
  else
    let err := env.pwm_config h e.pwm PWM_DUTY PWM_PERIOD
    let h := h ++ [Event.pwm_config e.pwm PWM_DUTY PWM_PERIOD err]
    if err < 0 then
      let h := h ++ [Event.pwm_free e.pwm]
      (h, { e with pwm := 0 }, err)
    else (h, e, 0)

/-- The function `cleanup_pwm(epd)`. -/
def cleanup_pwm (h : List Event) (e : epd) : List Event × epd × Int :=
  if e.pwm = 0 then (h, e, 0)
  else
    let h := h ++ [Event.pwm_disable e.pwm]
    let h := h ++ [Event.pwm_free e.pwm]
    (h, { e with pwm := 0 }, 0)

/-- The function `setup_thermal(epd)`.  The client returned by `i2c_new_device` is
attached to the adapter it was created on. -/
def setup_thermal (env : Env) (h : List Event) (e : epd) : List Event × epd × Int :=
  let adapt := env.i2c_get_adapter h 0
  let h := h ++ [Event.i2c_get_adapter 0 adapt]
  match adapt with
  | none => (h, e, -ENODEV)
  | some a =>
    let c := env.i2c_new_device h a LM75_ADDR
    let h := h ++ [Event.i2c_new_device a LM75_ADDR c]
    let e := { e with therm := c.map (fun p => { ptr := p, adapter := a }) }
    match e.therm with
    | none => (h ++ [Event.i2c_put_adapter a], e, -ENODEV)
    | some _ => (h, e, 0)

/-- The function `cleanup_thermal(epd)`.  Its last statement loads
`epd->therm->adapter` after `i2c_unregister_device(epd->therm)` has released the
client, so the value handed to `i2c_put_adapter` is what the released memory holds
at that moment, `env.freed_client_adapter`, not necessarily the adapter the client
was created on. -/
def cleanup_thermal (env : Env) (h : List Event) (e : epd) : List Event :=
  match e.therm with
  | none => h
  | some c =>
    let h := h ++ [Event.i2c_unregister_device c.ptr]
    let adapter := env.freed_client_adapter h c.ptr c.adapter
    h ++ [Event.i2c_put_adapter adapter]

/-- Outcome of `epd_probe`: the trace, the return value and the driver instance that
is alive afterwards (`none` when it was not allocated or has been freed). -/
structure ProbeResult where
  trace : List Event
  ret : Int
  drvdata : Option epd
deriving DecidableEq, Repr

/-- The label `fail:` of `epd_probe`. -/
def epd_probe_fail (env : Env) (h : List Event) (e : epd) (ret : Int) : ProbeResult :=
  let h := cleanup_thermal env h e
  let h := h ++ [Event.kfree]
  { trace := h, ret := ret, drvdata := none }

/-- The function `epd_probe(spi)`. -/
def epd_probe (env : Env) (h : List Event) (spi : Nat) : ProbeResult :=
  let ok := env.kzalloc h
  let h := h ++ [Event.kzalloc ok]
  if ok = false then { trace := h, ret := -ENOMEM, drvdata := none }
  else
    let e : epd := { spi := 0, therm := none, pwm := 0 }
    let ret := env.spi_setup h
    let h := h ++ [Event.spi_setup ret]
    if ret < 0 then epd_probe_fail env h e ret
    else
      let e := { e with spi := spi }
      let h := h ++ [Event.spi_set_drvdata]
      let r := setup_thermal env h e
      if r.2.2 < 0 then epd_probe_fail env r.1 r.2.1 r.2.2
      else
        let r := init_pwm env r.1 r.2.1
        if r.2.2 < 0 then epd_probe_fail env r.1 r.2.1 r.2.2
        else
          let client := r.2.1.therm.map (fun c => c.ptr)
          let temp := env.epd_therm_get_temp r.1 client
          let h := r.1 ++ [Event.epd_therm_get_temp client temp]
          { trace := h, ret := 0, drvdata := some r.2.1 }

/-- Outcome of `epd_remove`: the trace, the contents of the instance when it is
handed to `kfree`, and the return value. -/
structure RemoveResult where
  trace : List Event
  final : epd
  ret : Int
deriving DecidableEq, Repr

/-- The function `epd_remove(spi)`, given the instance `spi_get_drvdata` returns.
With a null instance `cleanup_pwm` dereferences a null pointer: no result. -/
def epd_remove (env : Env) (h : List Event) (drvdata : Option epd) :
    Option RemoveResult :=
  match drvdata with
  | none => none
  | some e =>
    let r := cleanup_pwm h e
    let h := cleanup_thermal env r.1 r.2.1
    let h := h ++ [Event.kfree]
    some { trace := h, final := r.2.1, ret := 0 }

/-! ## Observations on traces -/

/-- The bus transactions of a trace, in order, each with its return value. -/
def spi_events : List Event → List (List spi_transfer × Int)
  | [] => []
  | Event.spi_sync_transfer tx ret :: t => (tx, ret) :: spi_events t
  | _ :: t => spi_events t

/-- The bus transactions of a trace as seen on the wire: for each transaction the
list of its sub-transfers, each as (bytes sent, chip-select flag). -/
def bus_frames (t : List Event) : List (List (List Nat × Nat)) :=
  (spi_events t).map (fun x => x.1.map spi_transfer.wire)

/-- The values read from the line `gpio_busy` in a trace, in order. -/
def busy_reads (gpio_busy : Nat) : List Event → List Int
  | [] => []
  | Event.gpio_get_value g v :: t =>
    if g = gpio_busy then v :: busy_reads gpio_busy t else busy_reads gpio_busy t
  | _ :: t => busy_reads gpio_busy t

/-- A resource handed out by the kernel that must be given back. -/
inductive Resource where
  | clock (pwm : Int)
  | sensor (client : Nat)
  | adapter (adapt : Nat)
deriving DecidableEq, Repr

/-- The resource an event acquires, if any: a successful `pwm_get`, a successful
`i2c_get_adapter`, a successful `i2c_new_device`. -/
def acquires : Event → Option Resource
  | Event.pwm_get p => if IS_ERR p then none else some (Resource.clock p)
  | Event.i2c_get_adapter _ (some a) => some (Resource.adapter a)
  | Event.i2c_new_device _ _ (some c) => some (Resource.sensor c)
  | _ => none

/-- The resource an event releases, if any. -/
def releases : Event → Option Resource
  | Event.pwm_free p => some (Resource.clock p)
  | Event.i2c_put_adapter a => some (Resource.adapter a)
  | Event.i2c_unregister_device c => some (Resource.sensor c)
  | _ => none

/-- The ledger of held resources after a trace, starting from `held`: an acquisition
adds the resource, a release removes it; `none` when something is released that is
not held (a double release). -/
def ledger : List Resource → List Event → Option (List Resource)
  | held, [] => some held
  | held, ev :: t =>
    match releases ev with
    | some r => if r ∈ held then ledger (held.erase r) t else none
    | none =>
      match acquires ev with
      | some r => ledger (held ++ [r]) t
      | none => ledger held t

/-- Modelled from the spec: the states of a ClockHandle, `absent` when no clock is
held. -/
inductive ClockState where
  | absent
  | unconfigured
  | configured_disabled
  | configured_enabled
deriving DecidableEq, Repr

/-- Modelled from the spec: how the PWM calls move the ClockHandle between its states
(the PWM core is not part of the sources). -/
def clock_step : ClockState → Event → ClockState
  | _, Event.pwm_get p => if IS_ERR p then ClockState.absent else ClockState.unconfigured
  | s, Event.pwm_config _ _ _ ret =>
    if ret < 0 then s
    else match s with
      | ClockState.unconfigured => ClockState.configured_disabled
      | s => s
  | s, Event.pwm_enable _ =>
    match s with
    | ClockState.configured_disabled => ClockState.configured_enabled
    | s => s
  | s, Event.pwm_disable _ =>
    match s with
    | ClockState.configured_enabled => ClockState.configured_disabled
    | s => s
  | _, Event.pwm_free _ => ClockState.absent
  | s, _ => s

/-- The state of the clock after a trace, starting from `absent`. -/
def clock_state (t : List Event) : ClockState := t.foldl clock_step ClockState.absent

/-- An environment in which every kernel service succeeds, the busy line always
reads not-busy and the memory of a released i2c client still holds its old contents. -/
def okEnv : Env where
  kzalloc := fun _ => true
  spi_setup := fun _ => 0
  spi_sync_transfer := fun _ _ => 0
  gpio_get_value := fun _ _ => 0
  i2c_get_adapter := fun _ _ => some 1
  i2c_new_device := fun _ _ _ => some 2
  pwm_get := fun _ => 7
  pwm_config := fun _ _ _ _ => 0
  epd_therm_get_temp := fun _ _ => 20
  freed_client_adapter := fun _ _ adapt => adapt

/-! ## Specification-side descriptions of bus traffic -/

/-- The frame of a command as the protocol describes it: register header (flag
clear), register index (flag set), data header (flag clear), payload (flag clear). -/
def cmd_frame (regid : Nat) (payload : List Nat) : List (List Nat × Nat) :=
  [([0x70], 0), ([regid], 1), ([0x72], 0), (payload, 0)]

/-- The bring-up command sequence of the specification for given channel-select and
gate-source-level commands. -/
def bring_up_cmds (chansel gate_src_lvl : Nat) : List Nat :=
  [chansel, gate_src_lvl, SPI_CMD_OSC_ON, SPI_CMD_CHARGEPUMP_VPOS_ON,
   SPI_CMD_CHARGEPUMP_VNEG_ON, SPI_CMD_CHARGEPUMP_VCOM_ON, SPI_CMD_VCOM_LVL,
   SPI_CMD_OUTPUT_ENABLE]

/-- The bus frames of the bring-up sequence of the specification. -/
def bring_up_frames (chansel gate_src_lvl : Nat) : List (List (List Nat × Nat)) :=
  (bring_up_cmds chansel gate_src_lvl).map
    (fun cid => cmd_frame (__spi_cmd.getD cid spi_cmd_zero).regid
      (__spi_cmd.getD cid spi_cmd_zero).regdata)

/-- The control-flow paths of `epd_probe` on device `spi`, each as the events it
performs, its return value and the instance that is alive afterwards.  On the two
paths that release the sensor, `a1` is the adapter value read back from the released
client. -/
inductive ProbePath (spi : Nat) : List Event → Int → Option epd → Prop where
  | nomem : ProbePath spi [Event.kzalloc false] (-ENOMEM) none
  | setup_failed (r : Int) (hr : r < 0) :
    ProbePath spi [Event.kzalloc true, Event.spi_setup r, Event.kfree] r none
  | no_adapter (r : Int) (hr : 0 ≤ r) :
    ProbePath spi
      [Event.kzalloc true, Event.spi_setup r, Event.spi_set_drvdata,
       Event.i2c_get_adapter 0 none, Event.kfree] (-ENODEV) none
  | no_device (r : Int) (a : Nat) (hr : 0 ≤ r) :
    ProbePath spi
      [Event.kzalloc true, Event.spi_setup r, Event.spi_set_drvdata,
       Event.i2c_get_adapter 0 (some a), Event.i2c_new_device a LM75_ADDR none,
       Event.i2c_put_adapter a, Event.kfree] (-ENODEV) none
  | no_clock (r : Int) (a c a1 : Nat) (p : Int) (hr : 0 ≤ r) (hp : IS_ERR p = true) :
    ProbePath spi
      [Event.kzalloc true, Event.spi_setup r, Event.spi_set_drvdata,
       Event.i2c_get_adapter 0 (some a), Event.i2c_new_device a LM75_ADDR (some c),
       Event.pwm_get p, Event.i2c_unregister_device c, Event.i2c_put_adapter a1,
       Event.kfree] p none
  | config_failed (r : Int) (a c a1 : Nat) (p err : Int) (hr : 0 ≤ r)
      (hp : IS_ERR p = false) (herr : err < 0) :
    ProbePath spi
      [Event.kzalloc true, Event.spi_setup r, Event.spi_set_drvdata,
       Event.i2c_get_adapter 0 (some a), Event.i2c_new_device a LM75_ADDR (some c),
       Event.pwm_get p, Event.pwm_config p PWM_DUTY PWM_PERIOD err, Event.pwm_free p,
       Event.i2c_unregister_device c, Event.i2c_put_adapter a1, Event.kfree] err none
  | ok (r : Int) (a c : Nat) (p err temp : Int) (hr : 0 ≤ r)
      (hp : IS_ERR p = false) (herr : 0 ≤ err) :
    ProbePath spi
      [Event.kzalloc true, Event.spi_setup r, Event.spi_set_drvdata,
       Event.i2c_get_adapter 0 (some a), Event.i2c_new_device a LM75_ADDR (some c),
       Event.pwm_get p, Event.pwm_config p PWM_DUTY PWM_PERIOD err,
       Event.epd_therm_get_temp (some c) temp] 0
      (some { spi := spi, therm := some { ptr := c, adapter := a }, pwm := p })

/-- An environment like `okEnv` in which the memory of a released i2c client has been
overwritten when it is read back (here with the allocator's poison pattern), so that
the field `adapter` reads 0x6b6b6b6b instead of the adapter 1. -/
def poisonEnv : Env := { okEnv with freed_client_adapter := fun _ _ _ => 0x6b6b6b6b }

/-- An environment like `poisonEnv` in which `pwm_config` fails with -5. -/
def configFailPoisonEnv : Env := { poisonEnv with pwm_config := fun _ _ _ _ => -5 }

/-- The header transaction of a data stream as the protocol describes it: register
header, data register index and data header, chip-select held into the payload. -/
def stream_header_frame : List (List Nat × Nat) := [([0x70], 0), ([0x0a], 1), ([0x72], 1)]

/-- The transaction carrying byte `i` of a stream: that one byte, with the
chip-select flag set except on the last byte of the stream. -/
def payload_frame (data : List Nat) (i : Nat) : List (List Nat × Nat) :=
  [([data.getD i 0], if i + 1 = data.length then 0 else 1)]

/-- All bus transactions of a complete stream of `data`: the header, then one
single-byte transaction per byte, in order. -/
def stream_frames (data : List Nat) : List (List (List Nat × Nat)) :=
  stream_header_frame :: (List.range data.length).map (payload_frame data)

/-- Progress of the byte-then-poll handshake along a trace: `start` before the header
transaction, `ready` when a payload byte may be transferred (after the header, or
when the most recent read of the busy line returned not-busy), `waiting` after a
payload byte as long as the most recent read of the line is not a not-busy one. -/
inductive Handshake where
  | start
  | ready
  | waiting
deriving DecidableEq, Repr

/-- One step of the handshake monitor for the busy line `gpio_busy`; `none` is a
violation: a payload byte transferred while `waiting`.  Reads of other lines and all
other events leave the state unchanged. -/
def handshake_step (gpio_busy : Nat) : Handshake → Event → Option Handshake
  | Handshake.start, Event.spi_sync_transfer _ _ => some Handshake.ready
  | Handshake.ready, Event.spi_sync_transfer _ _ => some Handshake.waiting
  | Handshake.waiting, Event.spi_sync_transfer _ _ => none
  | Handshake.start, Event.gpio_get_value _ _ => some Handshake.start
  | s, Event.gpio_get_value g v =>
    if g = gpio_busy then
      (if v = 0 then some Handshake.ready else some Handshake.waiting)
    else some s
  | s, _ => some s

/-- The handshake monitor run over a trace from state `s`: the final state, or `none`
if some payload byte was transferred without a not-busy read since the previous one. -/
def handshake (gpio_busy : Nat) : Handshake → List Event → Option Handshake
  | s, [] => some s
  | s, ev :: t => (handshake_step gpio_busy s ev).bind (fun s1 => handshake gpio_busy s1 t)

/-- Every busy-wait terminates: from whatever history it starts, the busy line reads
not-busy after finitely many reads. -/
def BusyClears (env : Env) (gpio_busy : Nat) : Prop :=
  ∀ h, ∃ fuel, (busy_wait env gpio_busy fuel h).2 = true

/-- An environment like `okEnv` in which the busy line always reads busy. -/
def stuckEnv : Env := { okEnv with gpio_get_value := fun _ _ => 1 }

/-- An environment like `okEnv` in which the busy line reads busy on every other
read (busy, not-busy, busy, ...). -/
def pollEnv : Env :=
  { okEnv with
    gpio_get_value := fun h g => if (busy_reads g h).length % 2 = 0 then 1 else 0 }

/-- An environment like `pollEnv` in which the third bus transaction fails with -5. -/
def byteFailEnv : Env :=
  { pollEnv with
    spi_sync_transfer := fun h _ => if (spi_events h).length = 2 then -5 else 0 }

/-- The contents of `tx[0]` when iteration `i` of the loop of `spi_send_data` calls
`spi_sync_transfer`, given its contents `t0` at the start of the iteration. -/
def loop_tx (data : List Nat) (len : Nat) (i : Nat) (t0 : spi_transfer) : spi_transfer :=
  { tx_buf := data.drop i, len := t0.len,
    cs_change := if i + 1 = len then 0 else t0.cs_change }

/-- The array `tx` of `spi_send_data` as initialised: the header transaction. -/
def stream_header_tx : List spi_transfer :=
  [ { tx_buf := [SPI_REG_HEADER], len := 1 },
    { tx_buf := [SPI_REGIDX_DATA], len := 1, cs_change := 1 },
    { tx_buf := [SPI_DATA_HEADER], len := 1, cs_change := 1 } ]

/-- The element `tx[0]` of `spi_send_data` when the loop is entered. -/
def stream_tx0 : spi_transfer := { tx_buf := [SPI_REG_HEADER], len := 1, cs_change := 1 }

/-! ## Auxiliary lemmas -/

theorem spi_cmd_entry_wellformed : ∀ cid, cid < SPI_CMD_NR →
    (__spi_cmd.getD cid spi_cmd_zero).regid % 256 = (__spi_cmd.getD cid spi_cmd_zero).regid ∧
    (__spi_cmd.getD cid spi_cmd_zero).regdata.take (__spi_cmd.getD cid spi_cmd_zero).regdata_sz
      = (__spi_cmd.getD cid spi_cmd_zero).regdata ∧
    (__spi_cmd.getD cid spi_cmd_zero).regdata_sz
      = (__spi_cmd.getD cid spi_cmd_zero).regdata.length := by
  decide

theorem spi_send_cmd_in_range (env : Env) (h : List Event) (cid : Nat)
    (hc : cid < SPI_CMD_NR) :
    spi_send_cmd env h cid =
      __spi_send_cmd env h (__spi_cmd.getD cid spi_cmd_zero).regid
        (__spi_cmd.getD cid spi_cmd_zero).regdata
        (__spi_cmd.getD cid spi_cmd_zero).regdata_sz := by
  unfold spi_send_cmd
  rw [if_neg (by omega)]

/-! ## The command table and the dispatcher -/

/-- C5: the table `__spi_cmd` has exactly `SPI_CMD_NR` = 26 slots; every command id
below `SPI_CMD_NR` has exactly one explicit designated initialiser, the slot of the
table holds that initialiser, and its stored length `regdata_sz` is the number of
bytes of its payload array `regdata`. -/
theorem spi_cmd_table_total_and_length_consistent :
    SPI_CMD_NR = 26 ∧ __spi_cmd.length = SPI_CMD_NR ∧
    ∀ cid, cid < SPI_CMD_NR →
      (__spi_cmd_init.map Prod.fst).count cid = 1 ∧
      __spi_cmd.get? cid = List.lookup cid __spi_cmd_init ∧
      (List.lookup cid __spi_cmd_init).isSome = true ∧
      (__spi_cmd.getD cid spi_cmd_zero).regdata_sz
        = (__spi_cmd.getD cid spi_cmd_zero).regdata.length := by
  decide

theorem spi_cmd_table_total_and_length_consistent_witness :
    (__spi_cmd_init.map Prod.fst).count SPI_CMD_VCOM_LVL = 1 ∧
    __spi_cmd.get? SPI_CMD_VCOM_LVL = List.lookup SPI_CMD_VCOM_LVL __spi_cmd_init ∧
    (List.lookup SPI_CMD_VCOM_LVL __spi_cmd_init).isSome = true ∧
    (__spi_cmd.getD SPI_CMD_VCOM_LVL spi_cmd_zero).regdata_sz
      = (__spi_cmd.getD SPI_CMD_VCOM_LVL spi_cmd_zero).regdata.length :=
  spi_cmd_table_total_and_length_consistent.2.2 SPI_CMD_VCOM_LVL (by decide)

/-- C1: for every command id `cid < SPI_CMD_NR`, `spi_send_cmd` adds exactly one
event to the trace, one `spi_sync_transfer` of four sub-transfers which on the wire
are: the byte 0x70 with the flag clear, the byte `regid` of the table entry with
`cs_change` set, the byte 0x72 with the flag clear, and the whole payload of the
table entry with the flag clear; its return value is the value the environment
returned for that one transaction. -/
theorem spi_send_cmd_single_transaction (env : Env) (h : List Event) (cid : Nat)
    (hc : cid < SPI_CMD_NR) :
    ∃ tx : List spi_transfer,
      spi_send_cmd env h cid =
        (h ++ [Event.spi_sync_transfer tx (env.spi_sync_transfer h tx)],
          env.spi_sync_transfer h tx) ∧
      tx.length = 4 ∧
      tx.map spi_transfer.wire =
        cmd_frame (__spi_cmd.getD cid spi_cmd_zero).regid
          (__spi_cmd.getD cid spi_cmd_zero).regdata ∧
      tx.map spi_transfer.len = [1, 1, 1, (__spi_cmd.getD cid spi_cmd_zero).regdata.length] := by
  obtain ⟨hid, htake, hsz⟩ := spi_cmd_entry_wellformed cid hc
  rw [spi_send_cmd_in_range env h cid hc]
  generalize __spi_cmd.getD cid spi_cmd_zero = c at hid htake hsz ⊢
  refine ⟨_, rfl, rfl, ?_, ?_⟩
  · simp [spi_transfer.wire, cmd_frame, hid, htake, SPI_REG_HEADER, SPI_DATA_HEADER]
  · simp [hsz]

theorem spi_send_cmd_single_transaction_witness :
    ∃ tx : List spi_transfer,
      spi_send_cmd okEnv [] SPI_CMD_VCOM_LVL =
        ([Event.spi_sync_transfer tx 0], 0) ∧
      tx.map spi_transfer.wire = [([0x70], 0), ([0x09], 1), ([0x72], 0), ([0xD0, 0x00], 0)] := by
  obtain ⟨tx, h1, _, h3, _⟩ :=
    spi_send_cmd_single_transaction okEnv [] SPI_CMD_VCOM_LVL (by decide)
  exact ⟨tx, h1, h3⟩

/-- C4: for every `cid ≥ SPI_CMD_NR`, `spi_send_cmd` returns `-EINVAL` (a negative
value) and leaves the trace unchanged, so no bus transfer is made; for every
`cid < SPI_CMD_NR` it performs exactly one bus transaction and returns what the
transport returned for it. -/
theorem spi_send_cmd_fails_closed (env : Env) (h : List Event) (cid : Nat) :
    (SPI_CMD_NR ≤ cid → spi_send_cmd env h cid = (h, -EINVAL) ∧ -EINVAL < 0) ∧
    (cid < SPI_CMD_NR → ∃ tx,
      spi_send_cmd env h cid =
        (h ++ [Event.spi_sync_transfer tx (env.spi_sync_transfer h tx)],
          env.spi_sync_transfer h tx)) := by
  constructor
  · intro hc
    refine ⟨?_, by decide⟩
    unfold spi_send_cmd
    rw [if_pos hc]
  · intro hc
    rw [spi_send_cmd_in_range env h cid hc]
    exact ⟨_, rfl⟩

theorem spi_send_cmd_fails_closed_witness :
    (spi_send_cmd okEnv [] 26 = ([], -EINVAL) ∧ -EINVAL < 0) ∧
    (∃ tx, spi_send_cmd okEnv [] 25 =
        ([] ++ [Event.spi_sync_transfer tx (okEnv.spi_sync_transfer [] tx)],
          okEnv.spi_sync_transfer [] tx)) :=
  ⟨(spi_send_cmd_fails_closed okEnv [] 26).1 (by decide),
   (spi_send_cmd_fails_closed okEnv [] 25).2 (by decide)⟩

/-! ## Control-flow paths of the lifecycle functions -/

theorem setup_thermal_cases (env : Env) (h : List Event) (e : epd) :
    (env.i2c_get_adapter h 0 = none ∧
      setup_thermal env h e = (h ++ [Event.i2c_get_adapter 0 none], e, -ENODEV)) ∨
    (∃ a, env.i2c_get_adapter h 0 = some a ∧
      env.i2c_new_device (h ++ [Event.i2c_get_adapter 0 (some a)]) a LM75_ADDR = none ∧
      setup_thermal env h e =
        (h ++ [Event.i2c_get_adapter 0 (some a), Event.i2c_new_device a LM75_ADDR none,
               Event.i2c_put_adapter a], { e with therm := none }, -ENODEV)) ∨
    (∃ a c, env.i2c_get_adapter h 0 = some a ∧
      env.i2c_new_device (h ++ [Event.i2c_get_adapter 0 (some a)]) a LM75_ADDR = some c ∧
      setup_thermal env h e =
        (h ++ [Event.i2c_get_adapter 0 (some a), Event.i2c_new_device a LM75_ADDR (some c)],
          { e with therm := some { ptr := c, adapter := a } }, 0)) := by
  unfold setup_thermal
  cases ha : env.i2c_get_adapter h 0 with
  | none => left; simp
  | some a =>
    right
    cases hc : env.i2c_new_device (h ++ [Event.i2c_get_adapter 0 (some a)]) a LM75_ADDR with
    | none => left; exact ⟨a, rfl, hc, by simp [hc]⟩
    | some c => right; exact ⟨a, c, rfl, hc, by simp [hc]⟩

theorem init_pwm_cases (env : Env) (h : List Event) (e : epd) :
    (IS_ERR (env.pwm_get h) = true ∧
      init_pwm env h e = (h ++ [Event.pwm_get (env.pwm_get h)], { e with pwm := 0 },
        env.pwm_get h)) ∨
    (IS_ERR (env.pwm_get h) = false ∧
      env.pwm_config (h ++ [Event.pwm_get (env.pwm_get h)]) (env.pwm_get h)
        PWM_DUTY PWM_PERIOD < 0 ∧
      init_pwm env h e =
        (h ++ [Event.pwm_get (env.pwm_get h),
               Event.pwm_config (env.pwm_get h) PWM_DUTY PWM_PERIOD
                 (env.pwm_config (h ++ [Event.pwm_get (env.pwm_get h)]) (env.pwm_get h)
                   PWM_DUTY PWM_PERIOD),
               Event.pwm_free (env.pwm_get h)], { e with pwm := 0 },
          env.pwm_config (h ++ [Event.pwm_get (env.pwm_get h)]) (env.pwm_get h)
            PWM_DUTY PWM_PERIOD)) ∨
    (IS_ERR (env.pwm_get h) = false ∧
      0 ≤ env.pwm_config (h ++ [Event.pwm_get (env.pwm_get h)]) (env.pwm_get h)
        PWM_DUTY PWM_PERIOD ∧
      init_pwm env h e =
        (h ++ [Event.pwm_get (env.pwm_get h),
               Event.pwm_config (env.pwm_get h) PWM_DUTY PWM_PERIOD
                 (env.pwm_config (h ++ [Event.pwm_get (env.pwm_get h)]) (env.pwm_get h)
                   PWM_DUTY PWM_PERIOD)], { e with pwm := env.pwm_get h }, 0)) := by
  unfold init_pwm
  cases hp : IS_ERR (env.pwm_get h) with
  | true => left; simp [hp, PTR_ERR]
  | false =>
    right
    by_cases hc : env.pwm_config (h ++ [Event.pwm_get (env.pwm_get h)]) (env.pwm_get h)
        PWM_DUTY PWM_PERIOD < 0
    · left; simp [hp, hc]
    · right; simp [hp, hc]; omega

theorem epd_probe_path (env : Env) (h : List Event) (spi : Nat) :
    ∃ t, (epd_probe env h spi).trace = h ++ t ∧
      ProbePath spi t (epd_probe env h spi).ret (epd_probe env h spi).drvdata := by
  unfold epd_probe
  cases hk : env.kzalloc h with
  | false => exact ⟨[Event.kzalloc false], by simp, by simpa using ProbePath.nomem⟩
  | true =>
    simp only [Bool.true_eq_false, if_false]
    generalize env.spi_setup (h ++ [Event.kzalloc true]) = r
    by_cases hs : r < 0
    · refine ⟨[Event.kzalloc true, Event.spi_setup r, Event.kfree], ?_, ?_⟩
      · simp [hs, epd_probe_fail, cleanup_thermal]
      · simpa [hs, epd_probe_fail, cleanup_thermal] using ProbePath.setup_failed r hs
    · simp only [hs, if_false]
      have hs' : 0 ≤ r := by omega
      rcases setup_thermal_cases env
        (h ++ [Event.kzalloc true] ++ [Event.spi_setup r] ++ [Event.spi_set_drvdata])
        { spi := spi, therm := none, pwm := 0 }
        with ⟨_, hst⟩ | ⟨a, _, _, hst⟩ | ⟨a, c, _, _, hst⟩
      · rw [hst]
        refine ⟨[Event.kzalloc true, Event.spi_setup r, Event.spi_set_drvdata,
          Event.i2c_get_adapter 0 none, Event.kfree], ?_, ?_⟩
        · simp [ENODEV, epd_probe_fail, cleanup_thermal]
        · simpa [ENODEV, epd_probe_fail, cleanup_thermal] using ProbePath.no_adapter r hs'
      · rw [hst]
        refine ⟨[Event.kzalloc true, Event.spi_setup r, Event.spi_set_drvdata,
          Event.i2c_get_adapter 0 (some a), Event.i2c_new_device a LM75_ADDR none,
          Event.i2c_put_adapter a, Event.kfree], ?_, ?_⟩
        · simp [ENODEV, epd_probe_fail, cleanup_thermal]
        · simpa [ENODEV, epd_probe_fail, cleanup_thermal] using ProbePath.no_device r a hs'
      · rw [hst]
        simp only [lt_self_iff_false, if_false]
        rcases init_pwm_cases env
          (h ++ [Event.kzalloc true] ++ [Event.spi_setup r] ++ [Event.spi_set_drvdata] ++
            [Event.i2c_get_adapter 0 (some a), Event.i2c_new_device a LM75_ADDR (some c)])
          { spi := spi, therm := some { ptr := c, adapter := a }, pwm := 0 }
          with ⟨hp, hip⟩ | ⟨hp, he, hip⟩ | ⟨hp, he, hip⟩
        · rw [hip]
          generalize env.pwm_get _ = p at hp
          have hneg : p < 0 := by
            simp only [IS_ERR, decide_eq_true_eq] at hp; exact hp.2
          simp only [hneg, if_true, epd_probe_fail, cleanup_thermal]
          generalize env.freed_client_adapter _ c a = a1
          refine ⟨[Event.kzalloc true, Event.spi_setup r, Event.spi_set_drvdata,
            Event.i2c_get_adapter 0 (some a), Event.i2c_new_device a LM75_ADDR (some c),
            Event.pwm_get p, Event.i2c_unregister_device c, Event.i2c_put_adapter a1,
            Event.kfree], ?_, ?_⟩
          · simp
          · simpa using ProbePath.no_clock r a c a1 p hs' hp
        · rw [hip]
          generalize env.pwm_get _ = p at hp he
          generalize env.pwm_config _ p PWM_DUTY PWM_PERIOD = err at he
          simp only [he, if_true, epd_probe_fail, cleanup_thermal]
          generalize env.freed_client_adapter _ c a = a1
          refine ⟨[Event.kzalloc true, Event.spi_setup r, Event.spi_set_drvdata,
            Event.i2c_get_adapter 0 (some a), Event.i2c_new_device a LM75_ADDR (some c),
            Event.pwm_get p, Event.pwm_config p PWM_DUTY PWM_PERIOD err, Event.pwm_free p,
            Event.i2c_unregister_device c, Event.i2c_put_adapter a1,
            Event.kfree], ?_, ?_⟩
          · simp
          · simpa using ProbePath.config_failed r a c a1 p err hs' hp he
        · rw [hip]
          generalize env.pwm_get _ = p at hp he
          generalize env.pwm_config _ p PWM_DUTY PWM_PERIOD = err at he
          simp only [lt_self_iff_false, if_false]
          generalize env.epd_therm_get_temp _ _ = temp
          refine ⟨[Event.kzalloc true, Event.spi_setup r, Event.spi_set_drvdata,
            Event.i2c_get_adapter 0 (some a), Event.i2c_new_device a LM75_ADDR (some c),
            Event.pwm_get p, Event.pwm_config p PWM_DUTY PWM_PERIOD err,
            Event.epd_therm_get_temp (some c) temp], ?_, ?_⟩
          · simp
          · simpa using @ProbePath.ok spi r a c p err temp hs' hp he

/-- The events of `epd_remove` on an instance with a clock and a sensor: the clock is
disabled and freed, the sensor device is unregistered, and `i2c_put_adapter` is
called on the value read back from the released client. -/
theorem epd_remove_events (env : Env) (h : List Event) (e : epd) (c : i2c_client)
    (hclk : e.pwm ≠ 0) (hth : e.therm = some c) :
    epd_remove env h (some e) = some
      { trace := h ++
          [Event.pwm_disable e.pwm, Event.pwm_free e.pwm, Event.i2c_unregister_device c.ptr,
           Event.i2c_put_adapter
             (env.freed_client_adapter
               (h ++ [Event.pwm_disable e.pwm, Event.pwm_free e.pwm,
                      Event.i2c_unregister_device c.ptr]) c.ptr c.adapter),
           Event.kfree],
        final := { e with pwm := 0 }, ret := 0 } := by
  simp [epd_remove, cleanup_pwm, hclk, cleanup_thermal, hth]

/-! ## Bring-up and teardown -/

/-- C7 (counterexample): with every kernel service succeeding, `epd_probe` returns 0
and its trace contains no bus transaction at all, so it is not the eight frames of
the bring-up sequence, whatever the channel-select and gate-source-level commands. -/
theorem epd_probe_dispatches_nothing_example :
    (epd_probe okEnv [] 3).ret = 0 ∧
    bus_frames (epd_probe okEnv [] 3).trace = [] ∧
    ∀ chansel gate_src_lvl,
      bus_frames (epd_probe okEnv [] 3).trace ≠ bring_up_frames chansel gate_src_lvl := by
  refine ⟨by decide, by decide, ?_⟩
  intro chansel gate_src_lvl hEq
  have hlen := congrArg List.length hEq
  have h0 : (bus_frames (epd_probe okEnv [] 3).trace).length = 0 := by decide
  rw [h0] at hlen
  simp [bring_up_frames, bring_up_cmds] at hlen

/-- C7 (amended): `epd_probe` dispatches no command: on every path, successful or
not, the events it performs contain no bus transaction (`spi_sync_transfer`), only
`spi_setup` touches the bus device. -/
theorem epd_probe_no_bus_transfer (env : Env) (h : List Event) (spi : Nat) :
    ∃ t, (epd_probe env h spi).trace = h ++ t ∧ spi_events t = [] ∧ bus_frames t = [] := by
  obtain ⟨t, ht, hpath⟩ := epd_probe_path env h spi
  refine ⟨t, ht, ?_⟩
  generalize (epd_probe env h spi).ret = ret at hpath
  generalize (epd_probe env h spi).drvdata = d at hpath
  cases hpath <;> simp [spi_events, bus_frames]

/-- C6 (counterexample): with every kernel service succeeding, `epd_probe` returns 0
but the clock is left configured and disabled, not enabled. -/
theorem epd_probe_clock_not_enabled_example :
    (epd_probe okEnv [] 3).ret = 0 ∧
    clock_state (epd_probe okEnv [] 3).trace = ClockState.configured_disabled ∧
    clock_state (epd_probe okEnv [] 3).trace ≠ ClockState.configured_enabled := by
  decide

/-- C6 (amended): whenever `epd_probe` returns 0, the clock has been obtained and
configured with duty 2500 and period 5000 (50%) and has never been enabled: the
instance holds the obtained clock, the ClockHandle is in state configured-disabled,
and when the clock pointer is not null `epd_remove` disables and frees it, after
which no clock is held. -/
theorem epd_probe_clock_configured_not_enabled (env : Env) (h : List Event) (spi : Nat)
    (hok : (epd_probe env h spi).ret = 0) :
    PWM_DUTY = 2500 ∧ PWM_PERIOD = 5000 ∧
    ∃ t inst err,
      (epd_probe env h spi).trace = h ++ t ∧
      (epd_probe env h spi).drvdata = some inst ∧
      Event.pwm_get inst.pwm ∈ t ∧ IS_ERR inst.pwm = false ∧
      Event.pwm_config inst.pwm PWM_DUTY PWM_PERIOD err ∈ t ∧ 0 ≤ err ∧
      (∀ q, Event.pwm_enable q ∉ t) ∧
      clock_state t = ClockState.configured_disabled ∧
      (inst.pwm ≠ 0 → ∃ t2 out,
        epd_remove env (h ++ t) (some inst) = some out ∧
        out.trace = h ++ t ++ t2 ∧
        t2.take 2 = [Event.pwm_disable inst.pwm, Event.pwm_free inst.pwm] ∧
        clock_state (t ++ t2) = ClockState.absent) := by
  refine ⟨by decide, by decide, ?_⟩
  obtain ⟨t, ht, hpath⟩ := epd_probe_path env h spi
  rw [hok] at hpath
  generalize (epd_probe env h spi).drvdata = d at hpath
  generalize hz : (0 : Int) = z at hpath
  cases hpath with
  | nomem => simp [ENOMEM] at hz
  | setup_failed r hr => omega
  | no_adapter r hr => simp [ENODEV] at hz
  | no_device r a hr => simp [ENODEV] at hz
  | no_clock r a c a1 p hr hp =>
    simp only [IS_ERR, decide_eq_true_eq] at hp; omega
  | config_failed r a c a1 p err hr hp herr => omega
  | ok r a c p err temp hr hp herr =>
    refine ⟨_, _, err, ht, rfl, by simp, hp, by simp, herr, by simp, ?_, ?_⟩
    · simp [clock_state, clock_step, hp, not_lt.mpr herr]
    · intro hne
      simp only at hne
      refine ⟨_, _, epd_remove_events env _ _ { ptr := c, adapter := a } hne rfl, rfl, rfl, ?_⟩
      simp [clock_state, clock_step, hp, not_lt.mpr herr]

theorem epd_probe_clock_configured_not_enabled_witness :
    (epd_probe okEnv [] 3).ret = 0 ∧
    PWM_DUTY = 2500 ∧ PWM_PERIOD = 5000 ∧
    ∃ t inst err,
      (epd_probe okEnv [] 3).trace = [] ++ t ∧
      (epd_probe okEnv [] 3).drvdata = some inst ∧
      Event.pwm_get inst.pwm ∈ t ∧ IS_ERR inst.pwm = false ∧
      Event.pwm_config inst.pwm PWM_DUTY PWM_PERIOD err ∈ t ∧ 0 ≤ err ∧
      (∀ q, Event.pwm_enable q ∉ t) ∧
      clock_state t = ClockState.configured_disabled ∧
      (inst.pwm ≠ 0 → ∃ t2 out,
        epd_remove okEnv ([] ++ t) (some inst) = some out ∧
        out.trace = [] ++ t ++ t2 ∧
        t2.take 2 = [Event.pwm_disable inst.pwm, Event.pwm_free inst.pwm] ∧
        clock_state (t ++ t2) = ClockState.absent) :=
  ⟨by decide, epd_probe_clock_configured_not_enabled okEnv [] 3 (by decide)⟩

/-- C8 (code defect, at a concrete input): every kernel service succeeds, so
`epd_probe` returns 0 holding the adapter 1, the sensor device 2 and the clock 7; the
memory of the released sensor client is overwritten before `cleanup_thermal` reads
`epd->therm->adapter` back.  `epd_remove` then disables and frees the clock and
unregisters the sensor device, but calls `i2c_put_adapter` on the value 0x6b6b6b6b
read from the released client: the adapter 1 is never put, and the ledger rejects
the trace because something is released that is not held. -/
theorem epd_remove_puts_stale_adapter_example :
    (epd_probe poisonEnv [] 3).ret = 0 ∧
    (epd_probe poisonEnv [] 3).drvdata
      = some { spi := 3, therm := some { ptr := 2, adapter := 1 }, pwm := 7 } ∧
    ledger [] (epd_probe poisonEnv [] 3).trace
      = some [Resource.adapter 1, Resource.sensor 2, Resource.clock 7] ∧
    (epd_remove poisonEnv (epd_probe poisonEnv [] 3).trace
        (epd_probe poisonEnv [] 3).drvdata).map
        (fun out => out.trace.drop (epd_probe poisonEnv [] 3).trace.length)
      = some [Event.pwm_disable 7, Event.pwm_free 7, Event.i2c_unregister_device 2,
              Event.i2c_put_adapter 0x6b6b6b6b, Event.kfree] ∧
    (epd_remove poisonEnv (epd_probe poisonEnv [] 3).trace
        (epd_probe poisonEnv [] 3).drvdata).map
        (fun out => out.trace.count (Event.i2c_put_adapter 1)) = some 0 ∧
    (epd_remove poisonEnv (epd_probe poisonEnv [] 3).trace
        (epd_probe poisonEnv [] 3).drvdata).map
        (fun out => ledger [] out.trace) = some none ∧
    (epd_remove poisonEnv (epd_probe poisonEnv [] 3).trace
        (epd_probe poisonEnv [] 3).drvdata).map
        (fun out => out.final.pwm) = some 0 := by
  decide

/-- C10 (code defect, at a concrete input): `pwm_config` fails with -5 after the
adapter 1, the sensor device 2 and the clock 7 have been acquired, and the memory of
the released sensor client is overwritten before `cleanup_thermal` reads
`epd->therm->adapter` back.  `epd_probe` returns -5, frees the clock and unregisters
the sensor device, but calls `i2c_put_adapter` on the value 0x6b6b6b6b read from the
released client: the adapter 1 is never put, and the ledger rejects the trace
because something is released that is not held. -/
theorem epd_probe_unwind_puts_stale_adapter_example :
    (epd_probe configFailPoisonEnv [] 3).ret = -5 ∧
    (epd_probe configFailPoisonEnv [] 3).drvdata = none ∧
    (epd_probe configFailPoisonEnv [] 3).trace
      = [Event.kzalloc true, Event.spi_setup 0, Event.spi_set_drvdata,
         Event.i2c_get_adapter 0 (some 1), Event.i2c_new_device 1 LM75_ADDR (some 2),
         Event.pwm_get 7, Event.pwm_config 7 PWM_DUTY PWM_PERIOD (-5), Event.pwm_free 7,
         Event.i2c_unregister_device 2, Event.i2c_put_adapter 0x6b6b6b6b, Event.kfree] ∧
    (epd_probe configFailPoisonEnv [] 3).trace.count (Event.i2c_put_adapter 1) = 0 ∧
    ledger [] (epd_probe configFailPoisonEnv [] 3).trace = none := by
  decide

/-! ## Lemmas on traces and on the busy-wait -/

theorem spi_events_append (a b : List Event) :
    spi_events (a ++ b) = spi_events a ++ spi_events b := by
  induction a with
  | nil => rfl
  | cons ev t ih => cases ev <;> simp [spi_events, ih]

theorem bus_frames_append (a b : List Event) :
    bus_frames (a ++ b) = bus_frames a ++ bus_frames b := by
  simp [bus_frames, spi_events_append]

theorem busy_reads_append (g : Nat) (a b : List Event) :
    busy_reads g (a ++ b) = busy_reads g a ++ busy_reads g b := by
  induction a with
  | nil => rfl
  | cons ev t ih =>
    cases ev <;> simp [busy_reads, ih]
    split_ifs <;> simp

theorem handshake_append (g : Nat) (s : Handshake) (a b : List Event) :
    handshake g s (a ++ b) = (handshake g s a).bind (fun s1 => handshake g s1 b) := by
  induction a generalizing s with
  | nil => rfl
  | cons ev t ih =>
    simp only [List.cons_append, handshake]
    cases handshake_step g s ev with
    | none => rfl
    | some s1 => simpa using ih s1

/-- The events of a busy-wait: only reads of the line and `cpu_relax`; when the wait
has ended its last event is a not-busy read; the handshake monitor ends `ready` when
the wait has ended and `waiting` otherwise. -/
theorem busy_wait_events (env : Env) (gpio_busy : Nat) (fuel : Nat) (h : List Event) :
    ∃ p, (busy_wait env gpio_busy fuel h).1 = h ++ p ∧ spi_events p = [] ∧
      handshake gpio_busy Handshake.waiting p =
        some (if (busy_wait env gpio_busy fuel h).2 then Handshake.ready
              else Handshake.waiting) ∧
      ((busy_wait env gpio_busy fuel h).2 = true →
        p.getLast? = some (Event.gpio_get_value gpio_busy 0)) := by
  induction fuel generalizing h with
  | zero => exact ⟨[], by simp [busy_wait], rfl, by simp [busy_wait, handshake], by simp [busy_wait]⟩
  | succ n ih =>
    unfold busy_wait
    by_cases hv : env.gpio_get_value h gpio_busy = 0
    · refine ⟨[Event.gpio_get_value gpio_busy 0], ?_, rfl, ?_, ?_⟩
      · simp [hv]
      · simp [hv, handshake, handshake_step]
      · simp
    · obtain ⟨p, hp1, hp2, hp3, hp4⟩ := ih
        (h ++ [Event.gpio_get_value gpio_busy (env.gpio_get_value h gpio_busy)]
          ++ [Event.cpu_relax])
      refine ⟨[Event.gpio_get_value gpio_busy (env.gpio_get_value h gpio_busy),
        Event.cpu_relax] ++ p, ?_, ?_, ?_, ?_⟩
      · simp only [List.append_assoc, List.singleton_append] at hp1
        simp [hv, hp1]
      · simp [spi_events, hp2]
      · simp [hv, handshake, handshake_step, hp3]
      · intro hdone
        simp only [hv, ne_eq, not_false_eq_true, if_true] at hdone
        have hlast := hp4 hdone
        have hne : p ≠ [] := by
          intro hnil; rw [hnil] at hlast; simp at hlast
        obtain ⟨x, q, rfl⟩ := List.exists_cons_of_ne_nil hne
        simpa [List.getLast?_cons_cons] using hlast

theorem busy_wait_mono (env : Env) (gpio_busy : Nat) (fuel fuel1 : Nat) (h : List Event)
    (hdone : (busy_wait env gpio_busy fuel h).2 = true) (hle : fuel ≤ fuel1) :
    busy_wait env gpio_busy fuel1 h = busy_wait env gpio_busy fuel h := by
  induction fuel generalizing h fuel1 with
  | zero => simp [busy_wait] at hdone
  | succ n ih =>
    obtain ⟨m, rfl⟩ : ∃ m, fuel1 = m + 1 := ⟨fuel1 - 1, by omega⟩
    unfold busy_wait at hdone ⊢
    by_cases hv : env.gpio_get_value h gpio_busy = 0
    · simp [hv]
    · simp only [hv, ne_eq, not_false_eq_true, if_true] at hdone ⊢
      exact ih m _ hdone (by omega)

/-! ## The loop of `spi_send_data` -/

theorem spi_send_data_loop_exit (env : Env) (fuel gpio_busy : Nat) (data : List Nat)
    (len n i : Nat) (tx : List spi_transfer) (ret : Int) (h : List Event)
    (hi : ¬ i < len) :
    spi_send_data_loop env fuel gpio_busy data len n i tx ret h
      = { trace := h, result := some ret } := by
  cases n <;> simp [spi_send_data_loop, hi]

theorem spi_send_data_loop_step (env : Env) (fuel gpio_busy : Nat) (data : List Nat)
    (len n i : Nat) (t0 : spi_transfer) (rest : List spi_transfer) (ret : Int)
    (h : List Event) (hi : i < len) :
    spi_send_data_loop env fuel gpio_busy data len (n + 1) i (t0 :: rest) ret h =
      if env.spi_sync_transfer h [loop_tx data len i t0] < 0 then
        { trace := h ++ [Event.spi_sync_transfer [loop_tx data len i t0]
              (env.spi_sync_transfer h [loop_tx data len i t0])],
          result := some (env.spi_sync_transfer h [loop_tx data len i t0]) }
      else if (busy_wait env gpio_busy fuel
          (h ++ [Event.spi_sync_transfer [loop_tx data len i t0]
              (env.spi_sync_transfer h [loop_tx data len i t0])])).2 = true then
        spi_send_data_loop env fuel gpio_busy data len n (i + 1)
          (loop_tx data len i t0 :: rest)
          (env.spi_sync_transfer h [loop_tx data len i t0])
          (busy_wait env gpio_busy fuel
            (h ++ [Event.spi_sync_transfer [loop_tx data len i t0]
              (env.spi_sync_transfer h [loop_tx data len i t0])])).1
      else
        { trace := (busy_wait env gpio_busy fuel
            (h ++ [Event.spi_sync_transfer [loop_tx data len i t0]
              (env.spi_sync_transfer h [loop_tx data len i t0])])).1,
          result := none } := by
  rw [spi_send_data_loop]
  by_cases hl : i + 1 = len
  · simp [hi, hl, loop_tx, spi_sync_transfer, List.modifyHead]
  · simp [hi, hl, loop_tx, spi_sync_transfer, List.modifyHead]

theorem loop_tx_wire (data : List Nat) (i : Nat) (t0 : spi_transfer)
    (hi : i < data.length) (hlen : t0.len = 1) (hcs : t0.cs_change = 1) :
    [(loop_tx data data.length i t0).wire] = payload_frame data i := by
  have hget : (data.drop i).take 1 = [data.getD i 0] := by
    rw [List.getD_eq_getElem _ _ hi, List.drop_eq_getElem_cons hi]
    rfl
  simp [loop_tx, spi_transfer.wire, payload_frame, hlen, hcs, hget]

theorem spi_send_data_loop_handshake (env : Env) (fuel gpio_busy : Nat) (data : List Nat)
    (len n i : Nat) (t0 : spi_transfer) (rest : List spi_transfer) (ret : Int)
    (h : List Event) :
    ∃ t s,
      (spi_send_data_loop env fuel gpio_busy data len n i (t0 :: rest) ret h).trace = h ++ t ∧
      handshake gpio_busy Handshake.ready t = some s ∧
      (∀ r, (spi_send_data_loop env fuel gpio_busy data len n i (t0 :: rest) ret h).result
          = some r → 0 ≤ r → s = Handshake.ready) := by
  induction n generalizing i t0 ret h with
  | zero =>
    refine ⟨[], Handshake.ready, by simp [spi_send_data_loop], rfl, fun _ _ _ => rfl⟩
  | succ n ih =>
    by_cases hi : i < len
    · rw [spi_send_data_loop_step env fuel gpio_busy data len n i t0 rest ret h hi]
      generalize env.spi_sync_transfer h [loop_tx data len i t0] = r
      by_cases hr : r < 0
      · refine ⟨[Event.spi_sync_transfer [loop_tx data len i t0] r], Handshake.waiting,
          by simp [hr], by simp [handshake, handshake_step], ?_⟩
        intro r1 h1 h2
        simp [hr] at h1
        omega
      · simp only [hr, if_false]
        obtain ⟨p, hp1, _, hp3, _⟩ := busy_wait_events env gpio_busy fuel
          (h ++ [Event.spi_sync_transfer [loop_tx data len i t0] r])
        by_cases hd : (busy_wait env gpio_busy fuel
            (h ++ [Event.spi_sync_transfer [loop_tx data len i t0] r])).2 = true
        · simp only [hd, if_true] at hp3 ⊢
          obtain ⟨t, s, ht, hs, hres⟩ := ih (i + 1) (loop_tx data len i t0) r
            (busy_wait env gpio_busy fuel
              (h ++ [Event.spi_sync_transfer [loop_tx data len i t0] r])).1
          refine ⟨[Event.spi_sync_transfer [loop_tx data len i t0] r] ++ p ++ t, s, ?_, ?_, hres⟩
          · rw [ht, hp1]; simp
          · rw [handshake_append, handshake_append]
            simp [handshake, handshake_step, hp3, hs]
        · simp only [hd] at hp3 ⊢
          refine ⟨[Event.spi_sync_transfer [loop_tx data len i t0] r] ++ p, Handshake.waiting,
            ?_, ?_, ?_⟩
          · simp [hp1]
          · rw [handshake_append]
            simpa [handshake, handshake_step] using hp3
          · intro r1 h1
            simp at h1
    · rw [spi_send_data_loop_exit env fuel gpio_busy data len (n + 1) i _ ret h hi]
      exact ⟨[], Handshake.ready, by simp, rfl, fun _ _ _ => rfl⟩

/-! ## What the handshake monitor guarantees -/

theorem handshake_step_start (g : Nat) (s : Handshake) (ev : Event)
    (h : handshake_step g s ev = some Handshake.start) :
    s = Handshake.start ∧ spi_events [ev] = [] := by
  cases s <;> cases ev <;> simp [handshake_step, spi_events] at h ⊢ <;>
    (split_ifs at h <;> simp at h)

theorem handshake_start_stays (g : Nat) (s : Handshake) (t : List Event)
    (h : handshake g s t = some Handshake.start) :
    s = Handshake.start ∧ spi_events t = [] := by
  induction t generalizing s with
  | nil => simp [handshake] at h; exact ⟨h, rfl⟩
  | cons ev t ih =>
    simp only [handshake, Option.bind_eq_some] at h
    obtain ⟨s1, h1, h2⟩ := h
    obtain ⟨hs1, ht⟩ := ih s1 h2
    subst hs1
    obtain ⟨hs, hev⟩ := handshake_step_start g s ev h1
    refine ⟨hs, ?_⟩
    have := spi_events_append [ev] t
    simp only [List.singleton_append] at this
    rw [this, hev, ht]; rfl

theorem handshake_ready_last_read (g : Nat) (s : Handshake) (mid : List Event)
    (hs : s ≠ Handshake.start) (h : handshake g s mid = some Handshake.ready) :
    (s = Handshake.ready ∧ busy_reads g mid = [] ∧ spi_events mid = []) ∨
    (∃ m1 m2, mid = m1 ++ [Event.gpio_get_value g 0] ++ m2 ∧
      busy_reads g m2 = [] ∧ spi_events m2 = []) := by
  induction mid generalizing s with
  | nil => left; simp [handshake] at h; exact ⟨h, rfl, rfl⟩
  | cons ev t ih =>
    simp only [handshake, Option.bind_eq_some] at h
    obtain ⟨s1, h1, h2⟩ := h
    have hs1 : s1 ≠ Handshake.start := by
      intro hc; subst hc
      exact hs (handshake_step_start g s ev h1).1
    rcases ih s1 hs1 h2 with ⟨hr, hb, hsp⟩ | ⟨m1, m2, hm, hb, hsp⟩
    · subst hr
      cases ev with
      | gpio_get_value g1 v =>
        by_cases hg : g1 = g
        · right
          subst hg
          by_cases hv : v = 0
          · subst hv
            exact ⟨[], t, by simp, hb, hsp⟩
          · cases s <;> simp [handshake_step, hv] at h1 hs
        · left
          cases s <;> simp [handshake_step, busy_reads, spi_events, hb, hsp, hg] at h1 hs ⊢
      | spi_sync_transfer tx r => cases s <;> simp [handshake_step] at h1 hs
      | _ =>
        left
        cases s <;> simp [handshake_step, busy_reads, spi_events, hb, hsp] at h1 hs ⊢
    · right
      exact ⟨ev :: m1, m2, by simp [hm], hb, hsp⟩

/-- A trace accepted by the handshake monitor has the property in plain terms: for
any two bus transactions of the trace of which the first is not the first transaction
of the trace (so it carries a payload byte), the events between them contain a read
of the busy line that returned not-busy and that is followed by no further read and
by no further transaction: the most recent read before the second transaction
exists and is a not-busy one. -/
theorem handshake_sound (g : Nat) (t : List Event) (s : Handshake)
    (hs : handshake g Handshake.start t = some s)
    (pre mid post : List Event) (x y : List spi_transfer) (r r2 : Int)
    (ht : t = pre ++ [Event.spi_sync_transfer x r] ++ mid ++ [Event.spi_sync_transfer y r2]
      ++ post)
    (hpre : spi_events pre ≠ []) :
    ∃ m1 m2, mid = m1 ++ [Event.gpio_get_value g 0] ++ m2 ∧
      busy_reads g m2 = [] ∧ spi_events m2 = [] := by
  subst ht
  simp only [handshake_append, Option.bind_eq_some] at hs
  obtain ⟨s4, ⟨s3, ⟨s2, ⟨s1, hs1, hs2⟩, hs3⟩, hs4⟩, _⟩ := hs
  have h1 : s1 ≠ Handshake.start := by
    intro hc; subst hc
    exact hpre (handshake_start_stays g _ _ hs1).2
  have h2 : s2 = Handshake.waiting := by
    cases s1 <;> simp [handshake, handshake_step] at hs2 h1 ⊢
    exact hs2.symm
  subst h2
  have h3 : s3 = Handshake.ready := by
    cases s3 with
    | start => exact absurd (handshake_start_stays g _ _ hs3).1 (by decide)
    | ready => rfl
    | waiting => simp [handshake, handshake_step] at hs4
  subst h3
  rcases handshake_ready_last_read g Handshake.waiting mid (by decide) hs3 with
    ⟨hc, _, _⟩ | hgood
  · exact absurd hc (by decide)
  · exact hgood

/-! ## The streamed data writer -/

theorem spi_send_data_unfold (env : Env) (fuel : Nat) (h : List Event) (gpio_busy : Nat)
    (data : List Nat) (len : Nat) :
    spi_send_data env fuel h gpio_busy data len =
      if env.spi_sync_transfer h stream_header_tx < 0 then
        { trace := h ++ [Event.spi_sync_transfer stream_header_tx
            (env.spi_sync_transfer h stream_header_tx)],
          result := some (env.spi_sync_transfer h stream_header_tx) }
      else
        spi_send_data_loop env fuel gpio_busy data len len 0
          (stream_tx0 :: stream_header_tx.tail)
          (env.spi_sync_transfer h stream_header_tx)
          (h ++ [Event.spi_sync_transfer stream_header_tx
            (env.spi_sync_transfer h stream_header_tx)]) := by
  rfl

theorem stream_header_wire :
    stream_header_tx.map spi_transfer.wire = stream_header_frame := by
  decide


/-- C9: for every environment (every sequence of busy-line readings and transfer
results), every poll budget and every data, the events performed by `spi_send_data`
are accepted by the byte-then-poll monitor: no payload byte is transferred unless a
not-busy read of the busy line has occurred since the previous payload byte and is
the most recent read; in plain terms, between a payload-byte transaction and any
later transaction there is a read of the busy line that returned 0, followed by no
other read and no other transaction.  When the function returns success, the monitor
ends `ready`: the last payload byte too was followed by polling until not-busy. -/
theorem spi_send_data_byte_then_poll (env : Env) (fuel : Nat) (h : List Event)
    (gpio_busy : Nat) (data : List Nat) (len : Nat) :
    ∃ t s,
      (spi_send_data env fuel h gpio_busy data len).trace = h ++ t ∧
      handshake gpio_busy Handshake.start t = some s ∧
      (∀ r, (spi_send_data env fuel h gpio_busy data len).result = some r → 0 ≤ r →
        s = Handshake.ready) ∧
      (∀ (pre mid post : List Event) (x y : List spi_transfer) (r r2 : Int),
        t = pre ++ [Event.spi_sync_transfer x r] ++ mid ++ [Event.spi_sync_transfer y r2]
          ++ post →
        spi_events pre ≠ [] →
        ∃ m1 m2, mid = m1 ++ [Event.gpio_get_value gpio_busy 0] ++ m2 ∧
          busy_reads gpio_busy m2 = [] ∧ spi_events m2 = []) := by
  have key : ∃ t s,
      (spi_send_data env fuel h gpio_busy data len).trace = h ++ t ∧
      handshake gpio_busy Handshake.start t = some s ∧
      (∀ r, (spi_send_data env fuel h gpio_busy data len).result = some r → 0 ≤ r →
        s = Handshake.ready) := by
    rw [spi_send_data_unfold]
    generalize env.spi_sync_transfer h stream_header_tx = r0
    by_cases hr : r0 < 0
    · simp only [hr, if_true]
      exact ⟨[Event.spi_sync_transfer stream_header_tx r0], Handshake.ready, rfl,
        by simp [handshake, handshake_step], fun _ _ _ => rfl⟩
    · simp only [hr, if_false]
      obtain ⟨t, s, ht, hs, hres⟩ := spi_send_data_loop_handshake env fuel gpio_busy data len
        len 0 stream_tx0 stream_header_tx.tail r0
        (h ++ [Event.spi_sync_transfer stream_header_tx r0])
      refine ⟨Event.spi_sync_transfer stream_header_tx r0 :: t, s, ?_, ?_, hres⟩
      · rw [ht]; simp
      · simpa [handshake, handshake_step] using hs
  obtain ⟨t, s, ht, hs, hres⟩ := key
  refine ⟨t, s, ht, hs, hres, ?_⟩
  intro pre mid post x y r r2 hdec hpre
  exact handshake_sound gpio_busy t s hs pre mid post x y r r2 hdec hpre

theorem spi_send_data_byte_then_poll_witness :
    (spi_send_data pollEnv 5 [] 4 [7, 8] 2).result = some 0 ∧
    handshake 4 Handshake.start (spi_send_data pollEnv 5 [] 4 [7, 8] 2).trace
      = some Handshake.ready ∧
    ∃ m1 m2,
      [Event.gpio_get_value 4 1, Event.cpu_relax, Event.gpio_get_value 4 0]
        = m1 ++ [Event.gpio_get_value 4 0] ++ m2 ∧
      busy_reads 4 m2 = [] ∧ spi_events m2 = [] := by
  obtain ⟨t, s, ht, hs, hres, hsound⟩ := spi_send_data_byte_then_poll pollEnv 5 [] 4 [7, 8] 2
  simp only [List.nil_append] at ht
  have hready : s = Handshake.ready := hres 0 (by decide) (by decide)
  subst hready
  refine ⟨by decide, ?_, ?_⟩
  · rw [ht]; exact hs
  · exact hsound [Event.spi_sync_transfer stream_header_tx 0]
      [Event.gpio_get_value 4 1, Event.cpu_relax, Event.gpio_get_value 4 0]
      [Event.gpio_get_value 4 1, Event.cpu_relax, Event.gpio_get_value 4 0]
      [{ tx_buf := [7, 8], len := 1, cs_change := 1 }]
      [{ tx_buf := [8], len := 1, cs_change := 0 }] 0 0
      (by rw [← ht]; decide) (by decide)

/-- The monitor is not trivial: it rejects a trace in which a second payload byte
follows the first without any read of the busy line, and one in which the most
recent read was busy. -/
theorem handshake_rejects_unpolled_byte :
    handshake 4 Handshake.start
      [Event.spi_sync_transfer [] 0, Event.spi_sync_transfer [] 0,
       Event.spi_sync_transfer [] 0] = none ∧
    handshake 4 Handshake.start
      [Event.spi_sync_transfer [] 0, Event.spi_sync_transfer [] 0,
       Event.gpio_get_value 4 0, Event.gpio_get_value 4 1,
       Event.spi_sync_transfer [] 0] = none := by
  decide

theorem getLast_snd_getD_cons {α : Type} (a : α × Int) (s : List (α × Int)) (d : Int) :
    (((a :: s).getLast?).map Prod.snd).getD d = ((s.getLast?).map Prod.snd).getD a.2 := by
  cases s with
  | nil => simp
  | cons b s =>
    rw [List.getLast?_cons_cons]
    cases hl : (b :: s).getLast? with
    | none => simp at hl
    | some v => rfl

theorem spi_send_data_loop_complete (env : Env) (gpio_busy : Nat) (data : List Nat)
    (hs : ∀ h tx, 0 ≤ env.spi_sync_transfer h tx) (hb : BusyClears env gpio_busy)
    (n i : Nat) (t0 : spi_transfer) (rest : List spi_transfer) (ret : Int) (h : List Event)
    (hin : i + n = data.length) (hlen : t0.len = 1)
    (hcs : i < data.length → t0.cs_change = 1) :
    ∃ F, ∀ f, F ≤ f → ∃ t,
      (spi_send_data_loop env f gpio_busy data data.length n i (t0 :: rest) ret h).trace
        = h ++ t ∧
      bus_frames t = (List.range' i n).map (payload_frame data) ∧
      (spi_send_data_loop env f gpio_busy data data.length n i (t0 :: rest) ret h).result
        = some ((((spi_events t).getLast?).map Prod.snd).getD ret) := by
  induction n generalizing i t0 ret h with
  | zero =>
    refine ⟨0, fun f _ => ⟨[], ?_, ?_, ?_⟩⟩
    · rw [spi_send_data_loop_exit _ _ _ _ _ _ _ _ _ _ (by omega)]; simp
    · simp [bus_frames, spi_events]
    · rw [spi_send_data_loop_exit _ _ _ _ _ _ _ _ _ _ (by omega)]; simp [spi_events]
  | succ n ih =>
    have hi : i < data.length := by omega
    have hr := hs h [loop_tx data data.length i t0]
    obtain ⟨F1, hF1⟩ := hb (h ++ [Event.spi_sync_transfer [loop_tx data data.length i t0]
      (env.spi_sync_transfer h [loop_tx data data.length i t0])])
    obtain ⟨p, hp1, hp2, _, _⟩ := busy_wait_events env gpio_busy F1
      (h ++ [Event.spi_sync_transfer [loop_tx data data.length i t0]
        (env.spi_sync_transfer h [loop_tx data data.length i t0])])
    obtain ⟨F2, hF2⟩ := ih (i + 1) (loop_tx data data.length i t0)
      (env.spi_sync_transfer h [loop_tx data data.length i t0])
      (busy_wait env gpio_busy F1
        (h ++ [Event.spi_sync_transfer [loop_tx data data.length i t0]
          (env.spi_sync_transfer h [loop_tx data data.length i t0])])).1
      (by omega) (by simp [loop_tx, hlen])
      (by intro hlt; simp only [loop_tx]; rw [if_neg (by omega)]; exact hcs hi)
    refine ⟨max F1 F2, fun f hf => ?_⟩
    have hbw := busy_wait_mono env gpio_busy F1 f _ hF1 (le_trans (le_max_left F1 F2) hf)
    obtain ⟨t, ht, hfr, hres⟩ := hF2 f (le_trans (le_max_right F1 F2) hf)
    rw [spi_send_data_loop_step env f gpio_busy data data.length n i t0 rest ret h hi]
    rw [if_neg (by omega), hbw, if_pos hF1]
    refine ⟨[Event.spi_sync_transfer [loop_tx data data.length i t0]
      (env.spi_sync_transfer h [loop_tx data data.length i t0])] ++ p ++ t, ?_, ?_, ?_⟩
    · rw [ht, hp1]; simp
    · rw [bus_frames_append, bus_frames_append, hfr, List.range'_succ, List.map_cons,
        ← loop_tx_wire data i t0 hi hlen (hcs hi)]
      simp [bus_frames, spi_events, hp2]
    · rw [hres, spi_events_append, spi_events_append, hp2]
      simp only [spi_events, List.append_nil, List.singleton_append]
      rw [getLast_snd_getD_cons]

theorem spi_send_data_loop_failure (env : Env) (fuel gpio_busy : Nat) (data : List Nat)
    (n i : Nat) (t0 : spi_transfer) (rest : List spi_transfer) (ret : Int) (h : List Event)
    (hin : i + n = data.length) (hlen : t0.len = 1)
    (hcs : i < data.length → t0.cs_change = 1) :
    ∃ t,
      (spi_send_data_loop env fuel gpio_busy data data.length n i (t0 :: rest) ret h).trace
        = h ++ t ∧
      ∀ j x e, (spi_events t).get? j = some (x, e) → e < 0 →
        (spi_send_data_loop env fuel gpio_busy data data.length n i (t0 :: rest) ret h).result
          = some e ∧
        bus_frames t = ((List.range' i n).map (payload_frame data)).take (j + 1) ∧
        t.getLast? = some (Event.spi_sync_transfer x e) := by
  induction n generalizing i t0 ret h with
  | zero =>
    refine ⟨[], ?_, ?_⟩
    · rw [spi_send_data_loop_exit _ _ _ _ _ _ _ _ _ _ (by omega)]; simp
    · intro j x e hj; simp [spi_events] at hj
  | succ n ih =>
    have hi : i < data.length := by omega
    rw [spi_send_data_loop_step env fuel gpio_busy data data.length n i t0 rest ret h hi]
    have hwire := loop_tx_wire data i t0 hi hlen (hcs hi)
    generalize env.spi_sync_transfer h [loop_tx data data.length i t0] = r
    by_cases hr : r < 0
    · rw [if_pos hr]
      refine ⟨[Event.spi_sync_transfer [loop_tx data data.length i t0] r], rfl, ?_⟩
      intro j x e hj he
      cases j with
      | zero =>
        simp only [spi_events, List.get?_cons_zero, Option.some.injEq, Prod.mk.injEq] at hj
        obtain ⟨hx, hre⟩ := hj
        subst hx; subst hre
        refine ⟨rfl, ?_, rfl⟩
        rw [List.range'_succ, List.map_cons, ← hwire]
        simp [bus_frames, spi_events]
      | succ j => simp [spi_events] at hj
    · rw [if_neg hr]
      obtain ⟨p, hp1, hp2, _, _⟩ := busy_wait_events env gpio_busy fuel
        (h ++ [Event.spi_sync_transfer [loop_tx data data.length i t0] r])
      by_cases hd : (busy_wait env gpio_busy fuel
          (h ++ [Event.spi_sync_transfer [loop_tx data data.length i t0] r])).2 = true
      · rw [if_pos hd]
        obtain ⟨t, ht, hfail⟩ := ih (i + 1) (loop_tx data data.length i t0) r
          (busy_wait env gpio_busy fuel
            (h ++ [Event.spi_sync_transfer [loop_tx data data.length i t0] r])).1
          (by omega) (by simp [loop_tx, hlen])
          (by intro hlt; simp only [loop_tx]; rw [if_neg (by omega)]; exact hcs hi)
        refine ⟨[Event.spi_sync_transfer [loop_tx data data.length i t0] r] ++ p ++ t, ?_, ?_⟩
        · rw [ht, hp1]; simp
        · intro j x e hj he
          rw [spi_events_append, spi_events_append, hp2] at hj
          simp only [spi_events, List.append_nil, List.singleton_append] at hj
          cases j with
          | zero =>
            simp only [List.get?_cons_zero, Option.some.injEq, Prod.mk.injEq] at hj
            omega
          | succ j =>
            simp only [List.get?_cons_succ] at hj
            obtain ⟨h1, h2, h3⟩ := hfail j x e hj he
            refine ⟨h1, ?_, ?_⟩
            · rw [bus_frames_append, bus_frames_append, h2, List.range'_succ, List.map_cons,
                ← hwire]
              simp [bus_frames, spi_events, hp2]
            · have hne : t ≠ [] := by
                intro hnil; rw [hnil] at h3; simp at h3
              rw [List.getLast?_append_of_ne_nil _ hne]
              exact h3
      · rw [if_neg hd]
        refine ⟨[Event.spi_sync_transfer [loop_tx data data.length i t0] r] ++ p, ?_, ?_⟩
        · rw [hp1]; simp
        · intro j x e hj he
          rw [spi_events_append, hp2] at hj
          simp only [spi_events, List.append_nil] at hj
          cases j with
          | zero =>
            simp only [List.get?_cons_zero, Option.some.injEq, Prod.mk.injEq] at hj
            omega
          | succ j => simp at hj

theorem busy_wait_stuck (gpio_busy fuel : Nat) (h : List Event) :
    (busy_wait stuckEnv gpio_busy fuel h).2 = false := by
  induction fuel generalizing h with
  | zero => rfl
  | succ n ih =>
    unfold busy_wait
    have hv : stuckEnv.gpio_get_value h gpio_busy ≠ 0 := by simp [stuckEnv]
    simp only [hv, ne_eq, not_false_eq_true, if_true]
    exact ih _

/-- C2 (counterexample): with a transport on which every transfer succeeds but a busy
line that always reads busy, `spi_send_data` on the two bytes 1, 2 never returns,
whatever the poll budget, and issues only the header and the first payload byte: the
second payload transaction is never made. -/
theorem spi_send_data_stuck_busy_example :
    (∀ h tx, 0 ≤ stuckEnv.spi_sync_transfer h tx) ∧
    ∀ fuel,
      (spi_send_data stuckEnv fuel [] 4 [1, 2] 2).result = none ∧
      bus_frames (spi_send_data stuckEnv fuel [] 4 [1, 2] 2).trace
        = [stream_header_frame, [([1], 1)]] ∧
      bus_frames (spi_send_data stuckEnv fuel [] 4 [1, 2] 2).trace ≠ stream_frames [1, 2] := by
  refine ⟨fun _ _ => by simp [stuckEnv, okEnv], fun fuel => ?_⟩
  have hrun : (spi_send_data stuckEnv fuel [] 4 [1, 2] 2).result = none ∧
      bus_frames (spi_send_data stuckEnv fuel [] 4 [1, 2] 2).trace
        = [stream_header_frame, [([1], 1)]] := by
    rw [spi_send_data_unfold]
    have h0 : ¬ stuckEnv.spi_sync_transfer [] stream_header_tx < 0 := by decide
    rw [if_neg h0]
    have hstep := spi_send_data_loop_step stuckEnv fuel 4 [1, 2] 2 1 0 stream_tx0
      stream_header_tx.tail (stuckEnv.spi_sync_transfer [] stream_header_tx)
      ([] ++ [Event.spi_sync_transfer stream_header_tx
        (stuckEnv.spi_sync_transfer [] stream_header_tx)]) (by decide)
    rw [hstep]
    have h1 : ∀ hh tx, ¬ stuckEnv.spi_sync_transfer hh tx < 0 :=
      fun _ _ => by simp [stuckEnv, okEnv]
    rw [if_neg (h1 _ _), busy_wait_stuck]
    simp only [Bool.false_eq_true, if_false, true_and]
    obtain ⟨p, hp1, hp2, _, _⟩ := busy_wait_events stuckEnv 4 fuel
      ([] ++ [Event.spi_sync_transfer stream_header_tx
        (stuckEnv.spi_sync_transfer [] stream_header_tx)] ++
        [Event.spi_sync_transfer [loop_tx [1, 2] 2 0 stream_tx0]
          (stuckEnv.spi_sync_transfer ([] ++ [Event.spi_sync_transfer stream_header_tx
            (stuckEnv.spi_sync_transfer [] stream_header_tx)])
            [loop_tx [1, 2] 2 0 stream_tx0])])
    rw [hp1, bus_frames_append]
    simp only [bus_frames, hp2, List.map_nil, List.append_nil]
    decide
  refine ⟨hrun.1, hrun.2, ?_⟩
  rw [hrun.2]
  decide

/-- C2 (amended): for every byte sequence `data`, on a transport on which every
transfer succeeds and with a busy line that reads not-busy after finitely many reads
of every busy-wait, `spi_send_data` returns (for every sufficient poll budget) and
issues exactly the header transaction 0x70, 0x0a, 0x72 followed by one single-byte
transaction per byte of `data`, in order, each with `cs_change` set except the last
one; its result is the result of the last of these transactions, which for empty
data is the header transaction, the only event then performed. -/
theorem spi_send_data_stream_complete (env : Env) (h : List Event) (gpio_busy : Nat)
    (data : List Nat)
    (hs : ∀ h tx, 0 ≤ env.spi_sync_transfer h tx) (hb : BusyClears env gpio_busy) :
    ∃ F, ∀ f, F ≤ f → ∃ t,
      (spi_send_data env f h gpio_busy data data.length).trace = h ++ t ∧
      bus_frames t = stream_frames data ∧
      (spi_send_data env f h gpio_busy data data.length).result
        = ((spi_events t).getLast?).map Prod.snd ∧
      (spi_send_data env f h gpio_busy data data.length).result ≠ none ∧
      (data = [] →
        t = [Event.spi_sync_transfer stream_header_tx
              (env.spi_sync_transfer h stream_header_tx)] ∧
        (spi_send_data env f h gpio_busy data data.length).result
          = some (env.spi_sync_transfer h stream_header_tx)) := by
  obtain ⟨F, hF⟩ := spi_send_data_loop_complete env gpio_busy data hs hb data.length 0
    stream_tx0 stream_header_tx.tail (env.spi_sync_transfer h stream_header_tx)
    (h ++ [Event.spi_sync_transfer stream_header_tx
      (env.spi_sync_transfer h stream_header_tx)]) (by omega) rfl (fun _ => rfl)
  refine ⟨F, fun f hf => ?_⟩
  obtain ⟨t, ht, hfr, hres⟩ := hF f hf
  have h0 := hs h stream_header_tx
  rw [spi_send_data_unfold, if_neg (by omega)]
  refine ⟨Event.spi_sync_transfer stream_header_tx
    (env.spi_sync_transfer h stream_header_tx) :: t, ?_, ?_, ?_, ?_, ?_⟩
  · rw [ht]; simp
  · have hcons : bus_frames (Event.spi_sync_transfer stream_header_tx
        (env.spi_sync_transfer h stream_header_tx) :: t)
        = stream_header_tx.map spi_transfer.wire :: bus_frames t := by
      simp [bus_frames, spi_events]
    rw [hcons, hfr, stream_header_wire, stream_frames, List.range_eq_range']
  · rw [hres]
    cases hl : (spi_events t).getLast? with
    | none =>
      have hnil : spi_events t = [] := by simpa using hl
      simp [spi_events, hnil]
    | some v =>
      have hne : spi_events t ≠ [] := by
        intro hnil; rw [hnil] at hl; simp at hl
      obtain ⟨a, s, has⟩ := List.exists_cons_of_ne_nil hne
      simp only [spi_events, has, List.getLast?_cons_cons] at hl ⊢
      rw [hl]; rfl
  · rw [hres]; simp
  · intro hd
    subst hd
    have hexit := spi_send_data_loop_exit env f gpio_busy [] 0 0 0
      (stream_tx0 :: stream_header_tx.tail) (env.spi_sync_transfer h stream_header_tx)
      (h ++ [Event.spi_sync_transfer stream_header_tx
        (env.spi_sync_transfer h stream_header_tx)]) (by omega)
    simp only [List.length_nil] at ht ⊢
    rw [hexit] at ht ⊢
    have htn : t = [] := List.self_eq_append_right.mp ht
    rw [htn]
    exact ⟨rfl, rfl⟩

theorem spi_send_data_stream_complete_witness :
    ∃ F, ∀ f, F ≤ f → ∃ t,
      (spi_send_data okEnv f [] 4 [1, 2, 3] [1, 2, 3].length).trace = [] ++ t ∧
      bus_frames t = stream_frames [1, 2, 3] ∧
      (spi_send_data okEnv f [] 4 [1, 2, 3] [1, 2, 3].length).result
        = ((spi_events t).getLast?).map Prod.snd ∧
      (spi_send_data okEnv f [] 4 [1, 2, 3] [1, 2, 3].length).result ≠ none ∧
      (([1, 2, 3] : List Nat) = [] →
        t = [Event.spi_sync_transfer stream_header_tx
              (okEnv.spi_sync_transfer [] stream_header_tx)] ∧
        (spi_send_data okEnv f [] 4 [1, 2, 3] [1, 2, 3].length).result
          = some (okEnv.spi_sync_transfer [] stream_header_tx)) :=
  spi_send_data_stream_complete okEnv [] 4 [1, 2, 3]
    (fun _ _ => by simp [okEnv]) (fun _ => ⟨1, by simp [busy_wait, okEnv]⟩)

/-- C3: for every environment, poll budget and data, if some bus transaction of
`spi_send_data` returns a negative value `e` (transaction 0 is the header,
transaction `k + 1` carries byte `k`), then `spi_send_data` returns `e`, the bus
transactions made are exactly the header and the bytes up to and including the
failing one, each once and in order (so nothing after the failing byte is
transferred), and the failing transaction is the last event: the busy line is not
read after it.  When it is the header that fails, the header transaction is the only
event: no payload byte is sent and the busy line is never read. -/
theorem spi_send_data_failure (env : Env) (fuel : Nat) (h : List Event) (gpio_busy : Nat)
    (data : List Nat) :
    ∃ t,
      (spi_send_data env fuel h gpio_busy data data.length).trace = h ++ t ∧
      ∀ j x e, (spi_events t).get? j = some (x, e) → e < 0 →
        (spi_send_data env fuel h gpio_busy data data.length).result = some e ∧
        bus_frames t = (stream_frames data).take (j + 1) ∧
        t.getLast? = some (Event.spi_sync_transfer x e) ∧
        (j = 0 → t = [Event.spi_sync_transfer stream_header_tx e] ∧
          busy_reads gpio_busy t = []) := by
  rw [spi_send_data_unfold]
  generalize env.spi_sync_transfer h stream_header_tx = r0
  by_cases hr : r0 < 0
  · rw [if_pos hr]
    refine ⟨[Event.spi_sync_transfer stream_header_tx r0], rfl, ?_⟩
    intro j x e hj he
    cases j with
    | zero =>
      simp only [spi_events, List.get?_cons_zero, Option.some.injEq, Prod.mk.injEq] at hj
      obtain ⟨hx, hre⟩ := hj
      subst hx; subst hre
      refine ⟨rfl, ?_, rfl, fun _ => ⟨rfl, rfl⟩⟩
      simp [bus_frames, spi_events, stream_frames, stream_header_wire]
    | succ j => simp [spi_events] at hj
  · rw [if_neg hr]
    obtain ⟨t, ht, hfail⟩ := spi_send_data_loop_failure env fuel gpio_busy data data.length 0
      stream_tx0 stream_header_tx.tail r0
      (h ++ [Event.spi_sync_transfer stream_header_tx r0]) (by omega) rfl (fun _ => rfl)
    refine ⟨Event.spi_sync_transfer stream_header_tx r0 :: t, ?_, ?_⟩
    · rw [ht]; simp
    · intro j x e hj he
      simp only [spi_events] at hj
      cases j with
      | zero =>
        simp only [List.get?_cons_zero, Option.some.injEq, Prod.mk.injEq] at hj
        omega
      | succ j =>
        simp only [List.get?_cons_succ] at hj
        obtain ⟨h1, h2, h3⟩ := hfail j x e hj he
        refine ⟨h1, ?_, ?_, fun hc => by omega⟩
        · have hcons : bus_frames (Event.spi_sync_transfer stream_header_tx r0 :: t)
              = stream_header_tx.map spi_transfer.wire :: bus_frames t := by
            simp [bus_frames, spi_events]
          rw [hcons, h2, stream_header_wire, stream_frames, List.range_eq_range']
          rfl
        · have hne : t ≠ [] := by
            intro hnil; rw [hnil] at h3; simp at h3
          obtain ⟨a, s, has⟩ := List.exists_cons_of_ne_nil hne
          rw [has, List.getLast?_cons_cons, ← has]
          exact h3

theorem spi_send_data_failure_witness :
    ∃ t,
      (spi_send_data byteFailEnv 5 [] 4 [7, 8, 9] [7, 8, 9].length).trace = [] ++ t ∧
      (spi_events t).get? 2
        = some ([{ tx_buf := [8, 9], len := 1, cs_change := 1 }], -5) ∧
      (spi_send_data byteFailEnv 5 [] 4 [7, 8, 9] [7, 8, 9].length).result = some (-5) ∧
      bus_frames t = (stream_frames [7, 8, 9]).take (2 + 1) ∧
      t.getLast? = some (Event.spi_sync_transfer
        [{ tx_buf := [8, 9], len := 1, cs_change := 1 }] (-5)) := by
  obtain ⟨t, ht, hfail⟩ := spi_send_data_failure byteFailEnv 5 [] 4 [7, 8, 9]
  have hget : (spi_events t).get? 2
      = some ([{ tx_buf := [8, 9], len := 1, cs_change := 1 }], -5) := by
    simp only [List.nil_append] at ht
    rw [← ht]
    decide
  obtain ⟨h1, h2, h3, _⟩ := hfail 2 _ (-5) hget (by decide)
  exact ⟨t, ht, hget, h1, h2, h3⟩

end Epd
